import Mathlib

/-!
# Aegiswarm: a shallow embedding of the five swarm log-analysis strategies

Verification development for the Aegiswarm repository.  The five strategy
classes under `app/backend/backup/` (`abc_test.py`, `pso_test.py`,
`firefly_test.py`, `fss_test.py`, `aco_test.py`) are embedded shallowly:
Python floats become `ℚ`, log entries become a record with the source's
`.get(key, default)` defaults, numpy arrays become `List ℚ`, and the
stochastic optimization loops are abstracted by explicit parameters for the
values they produce (per-iteration candidates, draws of the random
generator), so that the deterministic parts — feature extraction, score
normalization, result synthesis, pheromone updates, loop control — are
embedded exactly as written.
-/

/- Batteries seals the `Rat` arithmetic behind `@[irreducible]`, which stops
`decide` from evaluating the embedded (fully executable) pipelines on
concrete inputs.  Reducibility is elaboration metadata with no bearing on
soundness — the kernel ignores it — so it is restored here for this file. -/
set_option allowUnsafeReducibility true
attribute [semireducible] Rat.add Rat.sub Rat.mul Rat.inv

/-! ## String helpers (models of the Python string operations used) -/

/-- Python `s.lower()` for the ASCII strings that appear in the sources. -/
def strLower (s : String) : String := String.mk (s.toList.map Char.toLower)

/-- Python `needle in hay` (contiguous substring containment). -/
def strContains (hay needle : String) : Bool :=
  (List.range (hay.toList.length + 1)).any fun i =>
    (hay.toList.drop i).take needle.toList.length = needle.toList

/-- Python `s.startswith(p)`. -/
def strStartsWith (s p : String) : Bool := s.toList.take p.toList.length = p.toList

/-! ## Numeric helpers shared by the strategies -/

/-- Row score `np.dot(f, w)`: sum of pairwise products. -/
def dot (f w : List ℚ) : ℚ := (List.zipWith (fun a b => a * b) f w).sum

/-- `np.max` on a list; the sources only call it on non-empty data (or guard
with `size > 0`), so the value returned for `[]` is never observable. -/
def npMax : List ℚ → ℚ
  | [] => 0
  | h :: t => t.foldl max h

/-- `np.argmax`: index of the first maximal element (0 for empty data, which
the sources guard against). -/
def npArgmax (l : List ℚ) : Nat :=
  (l.enum.foldl (fun best p => if l.getD best 0 < p.2 then p.1 else best) 0)

/-- `np.clip(x, 0, 1)` / `max(0.0, min(1.0, x))`. -/
def clamp01 (x : ℚ) : ℚ := max 0 (min 1 x)

/-- The guarded normalization pattern shared verbatim by the strategies:
`max_score = np.max(scores); if max_score > 0: scores = scores / max_score`
(pso_test.py 318-320 and 370-372, fss_test.py 379-380 and 421-423,
firefly_test.py 360-362 and 413-415, abc_test.py 304-306). -/
def normalizeByMax (scores : List ℚ) : List ℚ :=
  let m := npMax scores
  if 0 < m then scores.map (fun s => s / m) else scores

/-- Stable insertion of `x` into a descending-by-key list, after entries with
an equal key: together with `sortDescBy` this models Python's stable
`list.sort(key=…, reverse=True)`. -/
def insertDescBy (key : α → ℚ) (x : α) : List α → List α
  | [] => [x]
  | y :: ys => if key x ≤ key y then y :: insertDescBy key x ys else x :: y :: ys

/-- Stable sort, descending by a rational key (Python
`list.sort(key=…, reverse=True)`). -/
def sortDescBy (key : α → ℚ) (l : List α) : List α :=
  l.foldl (fun acc x => insertDescBy key x acc) []

/-- Stable insertion into an ascending-by-integer-key list, after entries
with an equal key. -/
def insertAscBy (key : α → ℤ) (x : α) : List α → List α
  | [] => [x]
  | y :: ys => if key y ≤ key x then y :: insertAscBy key x ys else x :: y :: ys

/-- Stable sort, ascending by an integer key (Python `list.sort(key=…)`). -/
def sortAscBy (key : α → ℤ) (l : List α) : List α :=
  l.foldl (fun acc x => insertAscBy key x acc) []

/-! ## Log entries

`LogEntry` models a JSON log record as the strategies read it: every read in
the sources is `log.get(key, '')` or `log.get(key, 0)`, so missing keys are
the default values below.  (`aco_test.py` line 198 defaults the port to `''`
and then takes `str(...)`; with the `Nat` field this becomes the string
`"0"`, which — like `''` — matches no key of the port risk table, so the two
defaults are observably equal.) -/

structure LogEntry where
  timestamp : String := ""
  source_ip : String := ""
  destination_ip : String := ""
  protocol : String := ""
  destination_port : Nat := 0
  event_type : String := ""
  status : String := ""
  location : String := ""
  process_name : String := ""
  filename : String := ""
  username : String := ""
  bytes_sent : Nat := 0
  bytes_received : Nat := 0
  deriving DecidableEq, Inhabited

/-! ## ABCLogAnalyzer (abc_test.py) -/

def abc_high_risk_locations : List String :=
  ["North Korea", "Russia", "Iran", "China", "Syria"]

def abc_medium_risk_locations : List String :=
  ["Ukraine", "Belarus", "Iraq", "Pakistan", "Nigeria"]

def abc_high_risk_ports : List Nat := [22, 23, 3389, 445, 135, 139, 8080, 1433, 3306]

def abc_medium_risk_ports : List Nat := [21, 8443, 5900, 5901, 6667]

def abc_high_risk_protocols : List String := ["SMB", "Telnet", "RDP", "SSH"]

def abc_medium_risk_protocols : List String := ["FTP", "IRC"]

def abc_high_risk_processes : List String :=
  ["ssh_brute", "mal_downloader", "worm.exe", "mimikatz", "pwdump"]

def abc_medium_risk_processes : List String := ["scan", "crack", "exploit", "admin"]

def abc_high_risk_events : List String :=
  ["lateral_movement", "data_exfiltration", "privilege_escalation"]

def abc_medium_risk_events : List String := ["port_scan", "brute_force"]

/-- `ABCLogAnalyzer._extract_features`, one row (abc_test.py 148-225):
8 features per log entry. -/
def abc_extractOne (log : LogEntry) : List ℚ :=
  [ if log.location ∈ abc_high_risk_locations then 1
    else if log.location ∈ abc_medium_risk_locations then 1/2 else 0
  , if log.destination_port ∈ abc_high_risk_ports then 1
    else if log.destination_port ∈ abc_medium_risk_ports then 1/2 else 0
  , if log.protocol ∈ abc_high_risk_protocols then 1
    else if log.protocol ∈ abc_medium_risk_protocols then 1/2 else 0
  , if abc_high_risk_processes.any (fun r => strContains (strLower log.process_name) r) then 1
    else if abc_medium_risk_processes.any (fun r => strContains (strLower log.process_name) r)
      then 1/2 else 0
  , if strLower log.event_type ∈ abc_high_risk_events then 1
    else if strLower log.event_type ∈ abc_medium_risk_events then 1/2 else 0
  , if strLower log.status = "failed" then 1 else 0
  , if 0 < log.bytes_received then
      (if 5 < (log.bytes_sent : ℚ) / (log.bytes_received : ℚ) then 1
       else if 1 < (log.bytes_sent : ℚ) / (log.bytes_received : ℚ) then 1/2 else 0)
    else if 10000 < log.bytes_sent then 1 else 0
  , if strLower log.filename ≠ "" ∧
        (["exploit", "malware", "hack", "backdoor"].any
          (fun p => strContains (strLower log.filename) p)) then 1
    else if strLower log.username = "root" ∨ strLower log.username = "admin" ∨
        strLower log.username = "administrator" then 7/10 else 0 ]

/-- `ABCLogAnalyzer._extract_features` (abc_test.py 148-225): one 8-feature
row per log entry, no entry skipped. -/
def abc_extractFeatures (logs : List LogEntry) : List (List ℚ) :=
  logs.map abc_extractOne

/-- Per-row anomaly scores `(feature_vectors * solution).sum(axis=1)`
(abc_test.py 274-277 and 298-301). -/
def abc_anomalyScores (sol : List ℚ) (F : List (List ℚ)) : List ℚ :=
  F.map (fun f => dot f sol)

/-- `ABCLogAnalyzer._calculate_fitness` (abc_test.py 266-294).  With at most
one log the function returns 0 before any statistic is computed (line
279-280).  The statistics branch needs real square roots (`np.std`), which
have no computable rational embedding; it is abstracted by the parameter
`stats`, keeping the early-return structure of the source.  The claims only
exercise the early-return branch. -/
def abc_calculateFitness (stats : List ℚ → ℚ) (sol : List ℚ) (F : List (List ℚ)) : ℚ :=
  let scores := abc_anomalyScores sol F
  if scores.length ≤ 1 then 0 else stats scores

/-- Onlooker-phase selection probabilities (abc_test.py 102-104):
`fitness / sum_fitness if sum_fitness > 0 else 1.0 / len(fitness_values)`. -/
def abc_probabilities (fitnessValues : List ℚ) : List ℚ :=
  fitnessValues.map
    (fun f => if 0 < fitnessValues.sum then f / fitnessValues.sum
              else 1 / (fitnessValues.length : ℚ))

/-- One check of the onlooker while-loop (abc_test.py 107-122).  The state is
`(i, count)`; the draw `r` (the value of `random.random()` at this check) is
compared with `probabilities[i]`; on success `count` increments.  The body
also perturbs `food_sources`, which changes neither `probabilities` (computed
before the loop) nor `i` nor `count`, so the loop control depends only on the
draws made at the check sites. -/
def abc_onlookerStep (probs : List ℚ) (r : ℚ) : Nat × Nat → Nat × Nat
  | (i, count) =>
    ((i + 1) % probs.length, if r < probs.getD i 0 then count + 1 else count)

/-- State of the onlooker loop after `n` checks, where `draws k` is the value
`random.random()` returned at the `k`-th check site. -/
def abc_onlookerState (probs : List ℚ) (draws : Nat → ℚ) : Nat → Nat × Nat
  | 0 => (0, 0)
  | n + 1 => abc_onlookerStep probs (draws n) (abc_onlookerState probs draws n)

/-- `ABCLogAnalyzer._produce_new_solution` (abc_test.py 242-264), with the
chosen other solution, dimension and `phi = random.uniform(-1, 1)` explicit.
The final renormalization `solution /= solution.sum()` has no zero guard in
the source; dividing the zero vector by its zero sum yields NaN in numpy,
which `none` models. -/
def abc_produceNewSolution (sol other : List ℚ) (d : Nat) (phi : ℚ) : Option (List ℚ) :=
  let s := sol.set d (clamp01 (sol.getD d 0 + phi * (sol.getD d 0 - other.getD d 0)))
  if s.sum = 0 then none else some (s.map (fun x => x / s.sum))

/-- Reasons attached to a flagged entry (abc_test.py 317-336).  They are
computed from the log entry alone, independently of the best solution. -/
def abc_reasons (log : LogEntry) : List String :=
  (if log.location ∈ abc_high_risk_locations
    then ["Suspicious location: " ++ log.location] else []) ++
  (if log.destination_port ∈ abc_high_risk_ports
    then ["High-risk port: " ++ toString log.destination_port] else []) ++
  (if log.protocol ∈ abc_high_risk_protocols
    then ["Risky protocol: " ++ log.protocol] else []) ++
  (if abc_high_risk_processes.any (fun r => strContains (strLower log.process_name) r)
    then ["Suspicious process: " ++ log.process_name] else []) ++
  (if strLower log.status = "failed" then ["Failed operation"] else [])

structure AbcAnomaly where
  log_index : Nat
  anomaly_score : ℚ
  reasons : List String
  timestamp : String
  source_ip : String
  destination_ip : String
  deriving DecidableEq, Inhabited

/-- The flagged-entry list of `_evaluate_best_solution` (abc_test.py
308-349): entries whose normalized score exceeds 0.6, with their
log-derived reasons, sorted by score descending. -/
def abc_detectedAnomalies (sol : List ℚ) (logs : List LogEntry) (F : List (List ℚ)) :
    List AbcAnomaly :=
  sortDescBy (fun a => a.anomaly_score) <|
    ((List.range (normalizeByMax (abc_anomalyScores sol F)).length).filter
      (fun i => 3/5 < (normalizeByMax (abc_anomalyScores sol F)).getD i 0)).map (fun i =>
      { log_index := i
        anomaly_score := (normalizeByMax (abc_anomalyScores sol F)).getD i 0
        reasons := abc_reasons (logs.getD i default)
        timestamp := (logs.getD i default).timestamp
        source_ip := (logs.getD i default).source_ip
        destination_ip := (logs.getD i default).destination_ip })

/-- `ABCLogAnalyzer._evaluate_best_solution` (abc_test.py 296-363): normalize
scores by their maximum (guarded), flag entries scoring above 0.6
(`abc_detectedAnomalies`), and blend the overall score. -/
def abc_evaluateBestSolution (sol : List ℚ) (logs : List LogEntry) (F : List (List ℚ)) :
    ℚ × List AbcAnomaly :=
  let scores := normalizeByMax (abc_anomalyScores sol F)
  let idx := (List.range scores.length).filter (fun i => 3/5 < scores.getD i 0)
  let perc : ℚ := if logs = [] then 0 else (idx.length : ℚ) / (logs.length : ℚ)
  let avg : ℚ := if idx = [] then 0
    else (idx.map (fun i => scores.getD i 0)).sum / (idx.length : ℚ)
  let maxScore : ℚ := if scores = [] then 0 else npMax scores
  (min 1 (perc * (3/10) + avg * (2/5) + maxScore * (3/10)),
   abc_detectedAnomalies sol logs F)

structure AbcResult where
  algorithm : String
  anomaly_score : ℚ
  detected_anomalies : List AbcAnomaly
  confidence : ℚ
  deriving DecidableEq, Inhabited

/-- The best-solution tracking of the ABC main loop (abc_test.py 83-136):
`best_solution` starts as `None` and is assigned only inside the iteration
loop; `cand it` abstracts the pair (food_sources[argmax], fitness at argmax)
the stochastic iteration `it` produced. -/
def abc_trackBest (maxIter : Nat) (cand : Nat → List ℚ × ℚ) : Option (List ℚ) × ℚ :=
  (List.range maxIter).foldl
    (fun acc it =>
      if acc.1 = none ∨ acc.2 < (cand it).2
        then (some (cand it).1, (cand it).2) else acc)
    (none, 0)

/-- `ABCLogAnalyzer.analyze` (abc_test.py 55-146).  The stochastic loop is
abstracted by `cand`; everything else follows the source.  Evaluating
`_evaluate_best_solution(None, …)` computes `feature_vectors * None`, which
raises `TypeError` in Python — the `Except.error` branch. -/
def abc_analyze (maxIter : Nat) (cand : Nat → List ℚ × ℚ) (logs : List LogEntry) :
    Except String AbcResult :=
  if logs = [] then .ok { algorithm := "abc", anomaly_score := 0,
                          detected_anomalies := [], confidence := 0 }
  else
    let F := abc_extractFeatures logs
    let best := abc_trackBest maxIter cand
    match best.1 with
    | none => .error "TypeError: feature_vectors * None"
    | some sol =>
      let r := abc_evaluateBestSolution sol logs F
      .ok { algorithm := "abc", anomaly_score := r.1,
            detected_anomalies := r.2, confidence := best.2 }

/-! ## PSOLogAnalyzer (pso_test.py) -/

def pso_high_risk_locations : List String :=
  ["North Korea", "Russia", "Iran", "China", "Syria",
   "Ukraine", "Belarus", "Iraq", "Venezuela"]

def pso_ports_very_high : List Nat := [445, 135, 139, 4444, 1433]

def pso_ports_high : List Nat := [22, 23, 3389, 21]

def pso_ports_medium : List Nat := [25, 53, 5900, 8080, 8443]

def pso_suspicious_protocols : List String := ["SMB", "Telnet", "RDP", "FTP", "IRC"]

def pso_malicious_processes : List String :=
  ["mimikatz", "pwdump", "wceaux", "lsass", "psexec", "winexe",
   "wmiexec", "xmrig", "nmap", "sqlmap", "hydra", "medusa"]

def pso_suspicious_files : List String :=
  ["exe", "dll", "ps1", "bat", "sh", "py", "pl",
   "exploit", "backdoor", "trojan", "keylog",
   "crack", "hack", "malware", "ransom"]

def pso_attack_events : List String :=
  ["lateral_movement", "data_exfiltration", "privilege_escalation", "brute_force"]

/-- An IP string counts as internal when it starts with `192.168.` or `10.`
(pso_test.py 231 and 236). -/
def pso_internalIp (ip : String) : Bool :=
  strStartsWith ip "192.168." || strStartsWith ip "10."

/-- `PSOLogAnalyzer._extract_features`, one row (pso_test.py 206-300):
15 features per log entry. -/
def pso_extractOne (log : LogEntry) : List ℚ :=
  [ if log.location ∈ pso_high_risk_locations then 1 else 0
  , if log.source_ip ≠ "" ∧ ¬ pso_internalIp log.source_ip then 1 else 0
  , if log.destination_ip ≠ "" ∧ ¬ pso_internalIp log.destination_ip then 7/10 else 0
  , if log.destination_port ∈ pso_ports_very_high then 1 else 0
  , if log.destination_port ∉ pso_ports_very_high ∧ log.destination_port ∈ pso_ports_high
      then 4/5 else 0
  , if log.destination_port ∉ pso_ports_very_high ∧ log.destination_port ∉ pso_ports_high ∧
        log.destination_port ∈ pso_ports_medium then 1/2 else 0
  , if log.protocol ∈ pso_suspicious_protocols then 9/10 else 0
  , if pso_malicious_processes.any (fun m => strContains (strLower log.process_name) m)
      then 1 else 0
  , if strLower log.filename ≠ "" ∧
        pso_suspicious_files.any (fun p => strContains (strLower log.filename) p)
      then 4/5 else 0
  , if log.event_type ∈ pso_attack_events then 1 else 0
  , if strLower log.status = "failed" then 7/10 else 0
  , if log.event_type = "login" ∧ strLower log.status = "failed" then 9/10 else 0
  , if 1000000 < log.bytes_sent then 4/5 else 0
  , if 5000000 < log.bytes_received then 3/5 else 0
  , if 0 < log.bytes_received ∧ 10 < (log.bytes_sent : ℚ) / (log.bytes_received : ℚ)
      then 7/10 else 0 ]

/-- `PSOLogAnalyzer._extract_features` (pso_test.py 206-300): rows whose
feature sum is 0 are dropped, and `log_indices` maps each kept row back to
the position of its log entry in the input list. -/
def pso_extractFeatures (logs : List LogEntry) : List (List ℚ) × List Nat :=
  logs.enum.foldl
    (fun acc p =>
      let f := pso_extractOne p.2
      if 0 < f.sum then (acc.1 ++ [f], acc.2 ++ [p.1]) else acc)
    ([], [])

/-- `PSOLogAnalyzer._calculate_risk_scores` (pso_test.py 364-374). -/
def pso_calculateRiskScores (pos : List ℚ) (F : List (List ℚ)) : List ℚ :=
  normalizeByMax (F.map (fun f => dot f pos))

/-- `PSOLogAnalyzer._get_factor_scores` (pso_test.py 376-384): per-dimension
contributions `position[i] * feature_vector[i]`, sorted descending. -/
def pso_getFactorScores (pos f : List ℚ) : List (Nat × ℚ) :=
  sortDescBy (fun p => p.2)
    ((List.range 15).map (fun i => (i, pos.getD i 0 * f.getD i 0)))

def pso_factorDescriptions : List String :=
  ["High-risk location", "External source IP", "External destination IP",
   "Very high-risk port", "High-risk port", "Medium-risk port",
   "Suspicious protocol", "Malicious process", "Suspicious file",
   "Attack event type", "Failed status", "Failed login attempt",
   "Large outbound data transfer", "Large inbound data transfer",
   "Unusual data transfer ratio"]

/-- `PSOLogAnalyzer._get_factor_detail` (pso_test.py 421-446). -/
def pso_getFactorDetail (i : Nat) (log : LogEntry) : String :=
  if i = 0 then "Location: " ++ log.location
  else if i = 1 then "Source IP: " ++ log.source_ip
  else if i = 2 then "Destination IP: " ++ log.destination_ip
  else if i = 3 ∨ i = 4 ∨ i = 5 then "Port: " ++ toString log.destination_port
  else if i = 6 then "Protocol: " ++ log.protocol
  else if i = 7 then "Process: " ++ log.process_name
  else if i = 8 then "File: " ++ log.filename
  else if i = 9 then "Event type: " ++ log.event_type
  else if i = 10 ∨ i = 11 then "Status: " ++ log.status
  else if i = 12 then "Bytes sent: " ++ toString log.bytes_sent
  else if i = 13 then "Bytes received: " ++ toString log.bytes_received
  else ""

structure PsoFactor where
  factor : String
  contribution : ℚ
  detail : String
  deriving DecidableEq, Inhabited

/-- `PSOLogAnalyzer._get_contributing_factors` (pso_test.py 386-419): keep
contributions above 0.01, describe them, return the top 5. -/
def pso_getContributingFactors (fs : List (Nat × ℚ)) (log : LogEntry) : List PsoFactor :=
  ((fs.filter (fun p => 1/100 < p.2)).map (fun p =>
    { factor := pso_factorDescriptions.getD p.1 ""
      contribution := p.2
      detail := pso_getFactorDetail p.1 log })).take 5

structure PsoFinding where
  log_index : Nat
  risk_score : ℚ
  timestamp : String
  source_ip : String
  destination_ip : String
  event_type : String
  contributing_factors : List PsoFactor
  deriving DecidableEq, Inhabited

/-- The findings loop of `PSOLogAnalyzer.analyze` (pso_test.py 168-190):
entries whose normalized risk score exceeds 0.6 are flagged, indices mapped
back through `log_mapping`, sorted by score descending. -/
def pso_findings (pos : List ℚ) (logs : List LogEntry) (F : List (List ℚ))
    (mapping : List Nat) : List PsoFinding :=
  sortDescBy (fun f => f.risk_score) <|
    ((List.range (pso_calculateRiskScores pos F).length).filter
      (fun i => 3/5 < (pso_calculateRiskScores pos F).getD i 0)).map (fun i =>
      { log_index := mapping.getD i 0
        risk_score := (pso_calculateRiskScores pos F).getD i 0
        timestamp := (logs.getD (mapping.getD i 0) default).timestamp
        source_ip := (logs.getD (mapping.getD i 0) default).source_ip
        destination_ip := (logs.getD (mapping.getD i 0) default).destination_ip
        event_type := (logs.getD (mapping.getD i 0) default).event_type
        contributing_factors :=
          pso_getContributingFactors (pso_getFactorScores pos (F.getD i []))
            (logs.getD (mapping.getD i 0) default) })

/-- `PSOLogAnalyzer._calculate_overall_risk` (pso_test.py 553-587). -/
def pso_overallRisk (scores : List ℚ) (findings : List PsoFinding) : ℚ :=
  if scores = [] then 0
  else
    let maxRisk := npMax scores
    let highPerc : ℚ := ((scores.filter (fun s => 7/10 < s)).length : ℚ) / (scores.length : ℚ)
    let attackEvents := findings.filter (fun f => f.event_type ∈ pso_attack_events)
    let apf : ℚ := (if 0 < attackEvents.length then 3/10 else 0) +
                   (if 3 ≤ findings.length then 1/5 else 0)
    min 1 (maxRisk * (2/5) + min 1 (highPerc * 3) * (3/10) + apf * (3/10))

structure PsoResult where
  algorithm : String
  risk_score : ℚ
  findings : List PsoFinding
  deriving DecidableEq, Inhabited

/-- `PSOLogAnalyzer.analyze` (pso_test.py 75-204) with the PSO loop
abstracted: `pos` is the `global_best_position` the stochastic search
produced (a point of `[0,1]^15`).  The empty-logs and empty-features early
returns and the synthesis stage follow the source.  The `security_trends`
and `optimization_path` fields (presentation data not touched by any claim)
are omitted from the result record. -/
def pso_analyze (pos : List ℚ) (logs : List LogEntry) : PsoResult :=
  if logs = [] then { algorithm := "pso", risk_score := 0, findings := [] }
  else if (pso_extractFeatures logs).1 = [] then
    { algorithm := "pso", risk_score := 0, findings := [] }
  else
    { algorithm := "pso"
      risk_score := pso_overallRisk
        (pso_calculateRiskScores pos (pso_extractFeatures logs).1)
        (pso_findings pos logs (pso_extractFeatures logs).1 (pso_extractFeatures logs).2)
      findings := pso_findings pos logs (pso_extractFeatures logs).1
        (pso_extractFeatures logs).2 }

/-! ## FireflyLogAnalyzer (firefly_test.py) -/

def firefly_high_risk_locations : List String :=
  ["North Korea", "Russia", "Iran", "China", "Syria",
   "Ukraine", "Belarus", "Iraq", "Venezuela"]

def firefly_ports_critical : List Nat := [445, 135, 139, 1433, 1434]

def firefly_ports_high : List Nat := [22, 23, 3389, 5900, 137, 138]

def firefly_ports_medium : List Nat := [21, 25, 110, 8080, 8443]

def firefly_suspicious_protocols : List String := ["SMB", "Telnet", "RDP", "FTP", "IRC"]

def firefly_malicious_processes : List String :=
  ["mimikatz", "pwdump", "psexec", "lazagne", "netcat",
   "wce", "procdump", "wmiexec", "cain", "hydra"]

def firefly_suspicious_files : List String :=
  [".exe", ".dll", ".bat", ".ps1", ".vbs", ".js",
   "exploit", "hack", "crack", "trojan", "backdoor",
   "keylog", "ransom", "crypt", "worm", "rat"]

def firefly_events_critical : List String :=
  ["data_exfiltration", "lateral_movement", "privilege_escalation"]

def firefly_events_high : List String := ["brute_force", "file_download", "port_scan"]

def firefly_events_medium : List String := ["login", "access", "network_scan"]

def firefly_suspicious_hours : List Nat := [0, 1, 2, 3, 4, 22, 23]

/-- A model of `datetime.fromisoformat(s).hour` for the timestamp shapes the
log files use (`YYYY-MM-DDTHH:MM:SS`, a possible trailing `Z` already
stripped by the caller): the hour digits at positions 11-12 of a well-formed
stamp, `none` (the Python `ValueError`) otherwise. -/
def isoHour (s : String) : Option Nat :=
  let cs := s.toList
  if cs.length = 19 ∧ cs.getD 4 ' ' = '-' ∧ cs.getD 7 ' ' = '-' ∧
      cs.getD 10 ' ' = 'T' ∧ cs.getD 13 ' ' = ':' ∧ cs.getD 16 ' ' = ':' ∧
      ([0, 1, 2, 3, 5, 6, 8, 9, 11, 12, 14, 15, 17, 18].all
        (fun i => (cs.getD i ' ').isDigit)) ∧
      (cs.getD 11 ' ').toNat * 10 + (cs.getD 12 ' ').toNat - 528 < 24 then
    some ((cs.getD 11 ' ').toNat * 10 + (cs.getD 12 ' ').toNat - 528)
  else none

/-- Python strips a trailing `Z` and replaces it with `+00:00`
(firefly_test.py 268-269, aco_test.py 212-213); the offset does not change
the parsed hour or ordering, so the model just strips the `Z`. -/
def stripZ (s : String) : String :=
  if s.toList.getLast? = some 'Z' then String.mk s.toList.dropLast else s

/-- An IP string counts as internal when it starts with `10.`, `172.16.` or
`192.168.` (firefly_test.py 317-318). -/
def firefly_internalIp (ip : String) : Bool :=
  strStartsWith ip "10." || strStartsWith ip "172.16." || strStartsWith ip "192.168."

/-- `FireflyLogAnalyzer._extract_features`, one row (firefly_test.py
234-342): 16 features per log entry. -/
def firefly_extractOne (log : LogEntry) : List ℚ :=
  [ if log.location ∈ firefly_high_risk_locations then 1 else 0
  , if log.timestamp ≠ "" ∧ (isoHour (stripZ log.timestamp)).getD 99 ∈ firefly_suspicious_hours
      then 1 else 0
  , if log.protocol ∈ firefly_suspicious_protocols then 1 else 0
  , if log.destination_port ∈ firefly_ports_critical then 1 else 0
  , if log.destination_port ∉ firefly_ports_critical ∧
        log.destination_port ∈ firefly_ports_high then 1 else 0
  , if log.destination_port ∉ firefly_ports_critical ∧
        log.destination_port ∉ firefly_ports_high ∧
        log.destination_port ∈ firefly_ports_medium then 1 else 0
  , if firefly_malicious_processes.any
        (fun m => strContains (strLower log.process_name) m) then 1 else 0
  , if firefly_suspicious_files.any
        (fun p => strContains (strLower log.filename) p) then 1 else 0
  , if log.event_type ∈ firefly_events_critical then 1 else 0
  , if log.event_type ∉ firefly_events_critical ∧
        log.event_type ∈ firefly_events_high then 1 else 0
  , if log.event_type ∉ firefly_events_critical ∧ log.event_type ∉ firefly_events_high ∧
        log.event_type ∈ firefly_events_medium then 1 else 0
  , if strLower log.status = "failed" then 1 else 0
  , if (log.source_ip ≠ "" ∧ ¬ firefly_internalIp log.source_ip) ∨
        (log.destination_ip ≠ "" ∧ ¬ firefly_internalIp log.destination_ip) then 1 else 0
  , if 1000000 < log.bytes_sent ∨ 5000000 < log.bytes_received ∨
        (0 < log.bytes_received ∧ 10 < (log.bytes_sent : ℚ) / (log.bytes_received : ℚ))
      then 1 else 0
  , if strLower log.username ∈ ["admin", "administrator", "root", "system", "superuser"]
      then 1 else 0
  , if log.event_type = "login" ∧ strLower log.status = "failed" then 1 else 0 ]

/-- `FireflyLogAnalyzer._extract_features` (firefly_test.py 234-342): rows
whose feature sum is 0 are dropped, `log_indices` maps kept rows back to
input positions. -/
def firefly_extractFeatures (logs : List LogEntry) : List (List ℚ) × List Nat :=
  logs.enum.foldl
    (fun acc p =>
      let f := firefly_extractOne p.2
      if 0 < f.sum then (acc.1 ++ [f], acc.2 ++ [p.1]) else acc)
    ([], [])

/-- `FireflyLogAnalyzer._calculate_alert_scores` (firefly_test.py 407-417). -/
def firefly_calculateAlertScores (pos : List ℚ) (F : List (List ℚ)) : List ℚ :=
  normalizeByMax (F.map (fun f => dot f pos))

/-- `FireflyLogAnalyzer._get_factor_contributions` (firefly_test.py
419-429): contributions of the dimensions whose feature is positive, sorted
descending. -/
def firefly_getFactorContributions (pos f : List ℚ) : List (Nat × ℚ) :=
  sortDescBy (fun p => p.2)
    (((List.range pos.length).filter (fun i => 0 < f.getD i 0)).map
      (fun i => (i, pos.getD i 0 * f.getD i 0)))

def firefly_factorDescriptions : List String :=
  ["High-risk location", "Suspicious time (non-business hours)",
   "Suspicious protocol", "Critical port", "High-risk port", "Medium-risk port",
   "Malicious process detected", "Suspicious filename", "Critical security event",
   "High-risk security event", "Medium-risk security event", "Failed operation",
   "External IP communication", "Unusual data transfer", "Privileged username",
   "Failed authentication"]

structure FireflyFactor where
  factor : String
  contribution : ℚ
  deriving DecidableEq, Inhabited

/-- `FireflyLogAnalyzer._describe_alert_factors` (firefly_test.py 431-464):
keep contributions above 0.01, top 5.  The per-factor `detail` strings
(`_get_specific_factor_detail`) are presentation text not touched by any
claim and are omitted. -/
def firefly_describeAlertFactors (fs : List (Nat × ℚ)) : List FireflyFactor :=
  ((fs.filter (fun p => 1/100 < p.2)).map (fun p =>
    { factor := firefly_factorDescriptions.getD p.1 "", contribution := p.2 })).take 5

structure FireflyEvent where
  log_index : Nat
  alert_score : ℚ
  timestamp : String
  source_ip : String
  destination_ip : String
  event_type : String
  status : String
  contributing_factors : List FireflyFactor
  deriving DecidableEq, Inhabited

/-- The critical-events loop of `FireflyLogAnalyzer.analyze` (firefly_test.py
193-218): entries above 0.65, mapped back through `log_mapping`, sorted by
score descending. -/
def firefly_criticalEvents (pos : List ℚ) (logs : List LogEntry) (F : List (List ℚ))
    (mapping : List Nat) : List FireflyEvent :=
  sortDescBy (fun e => e.alert_score) <|
    ((List.range (firefly_calculateAlertScores pos F).length).filter
      (fun i => 13/20 < (firefly_calculateAlertScores pos F).getD i 0)).map (fun i =>
      { log_index := mapping.getD i 0
        alert_score := (firefly_calculateAlertScores pos F).getD i 0
        timestamp := (logs.getD (mapping.getD i 0) default).timestamp
        source_ip := (logs.getD (mapping.getD i 0) default).source_ip
        destination_ip := (logs.getD (mapping.getD i 0) default).destination_ip
        event_type := (logs.getD (mapping.getD i 0) default).event_type
        status := (logs.getD (mapping.getD i 0) default).status
        contributing_factors :=
          firefly_describeAlertFactors (firefly_getFactorContributions pos (F.getD i [])) })

structure FireflyPattern where
  pattern_type : String
  severity : ℚ
  log_indices : List Nat
  count : Nat
  deriving DecidableEq, Inhabited

/-- Grouping of failed-login indices by source IP (firefly_test.py 553-561):
a Python dict in insertion order, appending to the group of an existing key. -/
def firefly_groupByIp (pairs : List (Nat × LogEntry)) : List (String × List Nat) :=
  pairs.foldl
    (fun gs p =>
      if p.2.source_ip = "" then gs
      else if gs.any (fun g => g.1 = p.2.source_ip) then
        gs.map (fun g => if g.1 = p.2.source_ip then (g.1, g.2 ++ [p.1]) else g)
      else gs ++ [(p.2.source_ip, [p.1])])
    []

/-- The failed-login selection of `_detect_brute_force` (firefly_test.py
548-550): the critical-event indices whose log is a failed login, paired
with their logs. -/
def firefly_failedLogins (logs : List LogEntry) (criticalIdx : List Nat) :
    List (Nat × LogEntry) :=
  criticalIdx.filterMap (fun i =>
    let log := logs.getD i default
    if log.event_type = "login" ∧ strLower log.status = "failed"
      then some (i, log) else none)

/-- `FireflyLogAnalyzer._detect_brute_force` (firefly_test.py 544-575):
among the critical events, failed logins are grouped by (non-empty) source
IP; the first group with at least 3 members yields a `brute_force` pattern of
severity 0.8. -/
def firefly_detectBruteForce (logs : List LogEntry) (criticalIdx : List Nat) :
    Option FireflyPattern :=
  let failed := firefly_failedLogins logs criticalIdx
  match (firefly_groupByIp failed).find? (fun g => 3 ≤ g.2.length) with
  | some g => some { pattern_type := "brute_force", severity := 4/5,
                     log_indices := g.2, count := g.2.length }
  | none => none

/-- `FireflyLogAnalyzer._detect_data_exfiltration` (firefly_test.py 577-595). -/
def firefly_detectDataExfiltration (logs : List LogEntry) (criticalIdx : List Nat) :
    Option FireflyPattern :=
  let transfers := criticalIdx.filter (fun i => 1000000 < (logs.getD i default).bytes_sent)
  if transfers = [] then none
  else some { pattern_type := "data_exfiltration", severity := 17/20,
              log_indices := transfers, count := transfers.length }

/-- `FireflyLogAnalyzer._detect_lateral_movement` (firefly_test.py 597-621). -/
def firefly_detectLateralMovement (logs : List LogEntry) (criticalIdx : List Nat) :
    Option FireflyPattern :=
  let lateral := criticalIdx.filter (fun i => (logs.getD i default).event_type = "lateral_movement")
  if lateral = [] then none
  else some { pattern_type := "lateral_movement", severity := 9/10,
              log_indices := lateral, count := lateral.length }

/-- `FireflyLogAnalyzer._detect_scanning` (firefly_test.py 623-641). -/
def firefly_detectScanning (logs : List LogEntry) (criticalIdx : List Nat) :
    Option FireflyPattern :=
  let scans := criticalIdx.filter (fun i => (logs.getD i default).event_type = "port_scan")
  if scans = [] then none
  else some { pattern_type := "scanning", severity := 3/4,
              log_indices := scans, count := scans.length }

/-- `FireflyLogAnalyzer._detect_privilege_escalation` (firefly_test.py
643-659). -/
def firefly_detectPrivEscalation (logs : List LogEntry) (criticalIdx : List Nat) :
    Option FireflyPattern :=
  let pe := criticalIdx.filter (fun i => (logs.getD i default).event_type = "privilege_escalation")
  if pe = [] then none
  else some { pattern_type := "privilege_escalation", severity := 9/10,
              log_indices := pe, count := pe.length }

/-- `FireflyLogAnalyzer._identify_suspicious_patterns` (firefly_test.py
504-542): nothing with fewer than 2 critical events, otherwise the five
detectors in order. -/
def firefly_identifyPatterns (logs : List LogEntry) (criticalIdx : List Nat) :
    List FireflyPattern :=
  if criticalIdx.length < 2 then []
  else
    (firefly_detectBruteForce logs criticalIdx).toList ++
    (firefly_detectDataExfiltration logs criticalIdx).toList ++
    (firefly_detectLateralMovement logs criticalIdx).toList ++
    (firefly_detectScanning logs criticalIdx).toList ++
    (firefly_detectPrivEscalation logs criticalIdx).toList

/-- `FireflyLogAnalyzer._calculate_overall_alert` (firefly_test.py 661-687). -/
def firefly_overallAlert (scores : List ℚ) (events : List FireflyEvent)
    (patterns : List FireflyPattern) : ℚ :=
  if scores = [] then 0
  else
    let maxScore := npMax scores
    let criticalFactor := min 1 (((events.length : ℚ) / (scores.length : ℚ)) * 5)
    let patternSeverity := if patterns = [] then 0 else npMax (patterns.map (fun p => p.severity))
    min 1 (maxScore * (7/20) + criticalFactor * (1/4) + patternSeverity * (2/5))

structure FireflyResult where
  algorithm : String
  alert_score : ℚ
  critical_events : List FireflyEvent
  suspicious_patterns : List FireflyPattern
  deriving DecidableEq, Inhabited

/-- `FireflyLogAnalyzer.analyze` (firefly_test.py 95-232) with the firefly
loop abstracted: `pos` is the `best_position` the stochastic search produced
(a point of `[0,1]^16`).  The `optimization_convergence` trace is loop data
not touched by any claim and is omitted from the record. -/
def firefly_analyze (pos : List ℚ) (logs : List LogEntry) : FireflyResult :=
  if logs = [] then
    { algorithm := "firefly", alert_score := 0, critical_events := [], suspicious_patterns := [] }
  else if (firefly_extractFeatures logs).1 = [] then
    { algorithm := "firefly", alert_score := 0, critical_events := [], suspicious_patterns := [] }
  else
    { algorithm := "firefly"
      alert_score := firefly_overallAlert
        (firefly_calculateAlertScores pos (firefly_extractFeatures logs).1)
        (firefly_criticalEvents pos logs (firefly_extractFeatures logs).1
          (firefly_extractFeatures logs).2)
        (firefly_identifyPatterns logs
          ((firefly_criticalEvents pos logs (firefly_extractFeatures logs).1
            (firefly_extractFeatures logs).2).map (fun e => e.log_index)))
      critical_events := firefly_criticalEvents pos logs (firefly_extractFeatures logs).1
        (firefly_extractFeatures logs).2
      suspicious_patterns := firefly_identifyPatterns logs
        ((firefly_criticalEvents pos logs (firefly_extractFeatures logs).1
          (firefly_extractFeatures logs).2).map (fun e => e.log_index)) }

/-! ## FSSLogAnalyzer (fss_test.py) -/

def fss_high_risk_locations : List String :=
  ["North Korea", "Russia", "Iran", "China", "Syria"]

def fss_medium_risk_locations : List String :=
  ["Ukraine", "Belarus", "Vietnam", "Nigeria", "Brazil"]

def fss_high_risk_ports : List Nat := [22, 23, 445, 3389, 135, 139, 1433, 4444]

def fss_high_risk_protocols : List String := ["SMB", "Telnet", "RDP", "SSH", "FTP"]

def fss_suspicious_processes : List String :=
  ["ssh_brute", "mal_downloader", "worm.exe", "exploit",
   "mimikatz", "pwdump", "scan", "crack"]

def fss_suspicious_file_patterns : List String :=
  ["exploit", "toolkit", "malware", "hack", "crack", "trojan",
   "worm", "virus", "ransom", "backdoor"]

def fss_sensitive_events : List String :=
  ["lateral_movement", "data_exfiltration", "privilege_escalation"]

/-- `FSSLogAnalyzer._extract_features`, one row (fss_test.py 287-361):
12 features per log entry. -/
def fss_extractOne (log : LogEntry) : List ℚ :=
  [ if log.location ∈ fss_high_risk_locations then 1 else 0
  , if log.location ∉ fss_high_risk_locations ∧ log.location ∈ fss_medium_risk_locations
      then 1 else 0
  , if log.destination_port ∈ fss_high_risk_ports then 1 else 0
  , if log.protocol ∈ fss_high_risk_protocols then 1 else 0
  , if fss_suspicious_processes.any (fun m => strContains (strLower log.process_name) m)
      then 1 else 0
  , if fss_suspicious_file_patterns.any (fun p => strContains (strLower log.filename) p)
      then 1 else 0
  , if strLower log.status = "failed" then 1 else 0
  , if 100000 < log.bytes_sent ∨ 1000000 < log.bytes_received then 1 else 0
  , if log.event_type = "login" ∧ strLower log.status = "failed" then 1 else 0
  , 0
  , if log.event_type ∈ fss_sensitive_events then 1 else 0
  , if (strStartsWith log.source_ip "192.168." ∧ ¬ strStartsWith log.destination_ip "192.168.") ∨
        (strStartsWith log.source_ip "10." ∧ ¬ strStartsWith log.destination_ip "10.")
      then 1 else 0 ]

/-- `FSSLogAnalyzer._extract_features` (fss_test.py 287-361): a log entry
with neither a source IP nor an event type is skipped entirely (line
293-295); the kept rows carry their original input position in
`log_indices`. -/
def fss_extractFeatures (logs : List LogEntry) : List (List ℚ) × List Nat :=
  logs.enum.foldl
    (fun acc p =>
      if p.2.source_ip = "" ∧ p.2.event_type = "" then acc
      else (acc.1 ++ [fss_extractOne p.2], acc.2 ++ [p.1]))
    ([], [])

/-- `FSSLogAnalyzer._calculate_anomaly_scores` (fss_test.py 415-424). -/
def fss_calculateAnomalyScores (pos : List ℚ) (F : List (List ℚ)) : List ℚ :=
  normalizeByMax (F.map (fun f => dot f pos))

/-- `FSSLogAnalyzer._determine_anomaly_reasons` (fss_test.py 426-478):
reasons are emitted only for dimensions whose weight in the best position
exceeds 0.5. -/
def fss_determineAnomalyReasons (log : LogEntry) (pos : List ℚ) : List String :=
  (if 1/2 < pos.getD 0 0 ∧ log.location ∈ fss_high_risk_locations
    then ["High-risk location: " ++ log.location] else []) ++
  (if 1/2 < pos.getD 2 0 ∧ log.destination_port ∈ fss_high_risk_ports
    then ["High-risk port: " ++ toString log.destination_port] else []) ++
  (if 1/2 < pos.getD 3 0 ∧ log.protocol ∈ fss_high_risk_protocols
    then ["Suspicious protocol: " ++ log.protocol] else []) ++
  (if 1/2 < pos.getD 4 0 ∧
      fss_suspicious_processes.any (fun m => strContains (strLower log.process_name) m)
    then ["Suspicious process: " ++ log.process_name] else []) ++
  (if 1/2 < pos.getD 5 0 ∧
      fss_suspicious_file_patterns.any (fun p => strContains (strLower log.filename) p)
    then ["Suspicious filename: " ++ log.filename] else []) ++
  (if 1/2 < pos.getD 6 0 ∧ strLower log.status = "failed"
    then ["Failed operation"] else []) ++
  (if 1/2 < pos.getD 7 0 ∧ 100000 < log.bytes_sent
    then ["Large outbound transfer: " ++ toString log.bytes_sent ++ " bytes"] else []) ++
  (if 1/2 < pos.getD 7 0 ∧ 1000000 < log.bytes_received
    then ["Large inbound transfer: " ++ toString log.bytes_received ++ " bytes"] else []) ++
  (if 1/2 < pos.getD 10 0 ∧ log.event_type ∈ fss_sensitive_events
    then ["Sensitive action: " ++ log.event_type] else [])

structure FssEvent where
  log_index : Nat
  score : ℚ
  timestamp : String
  source_ip : String
  destination_ip : String
  event_type : String
  reasons : List String
  deriving DecidableEq, Inhabited

/-- The priority-events loop of `FSSLogAnalyzer.analyze` (fss_test.py
229-250): entries above 0.6, mapped back through `log_indices`, sorted by
score descending. -/
def fss_priorityEvents (pos : List ℚ) (logs : List LogEntry) (F : List (List ℚ))
    (mapping : List Nat) : List FssEvent :=
  let scores := fss_calculateAnomalyScores pos F
  let idx := (List.range scores.length).filter (fun i => 3/5 < scores.getD i 0)
  sortDescBy (fun e => e.score) <| idx.map (fun i =>
    let origIdx := mapping.getD i 0
    let log := logs.getD origIdx default
    { log_index := origIdx
      score := scores.getD i 0
      timestamp := log.timestamp
      source_ip := log.source_ip
      destination_ip := log.destination_ip
      event_type := log.event_type
      reasons := fss_determineAnomalyReasons log pos })

def fss_feature_names : List String :=
  ["high_risk_location", "medium_risk_location", "high_risk_port",
   "high_risk_protocol", "suspicious_process", "suspicious_file",
   "failed_status", "large_transfer", "repeated_login",
   "unusual_time", "sensitive_action", "unusual_connection"]

structure FssResult where
  algorithm : String
  anomaly_score : ℚ
  priority_events : List FssEvent
  feature_importance : List (String × ℚ)
  deriving DecidableEq, Inhabited

/-- What `FSSLogAnalyzer.analyze` reads after its main loop (fss_test.py
105-224): `best_position` starts as `None` and is reassigned only inside the
loop body, and `fitness_values` is a loop-local name that exists only if the
body ran at least once.  With `iterations = 0` both are absent; otherwise the
values the stochastic iterations produced are abstracted by `bestUpd` and
`fvs`. -/
def fss_afterLoop (iters : Nat) (bestUpd : Nat → Option (List ℚ)) (fvs : Nat → List ℚ) :
    Option (List ℚ) × Option (List ℚ) :=
  if iters = 0 then (none, none) else (bestUpd (iters - 1), some (fvs (iters - 1)))

/-- `FSSLogAnalyzer.analyze` (fss_test.py 71-285).  The stochastic loop is
abstracted by `bestUpd` / `fvs` / `positionsAfter` / `bestFit`; the early
returns, the `best_position is None` fallback (which reads the possibly
unassigned `fitness_values` — `NameError`, the `Except.error` branch), and
the synthesis follow the source.  The `risk_factors` field (presentation
data not touched by any claim) is omitted from the record. -/
def fss_analyze (iters : Nat) (bestUpd : Nat → Option (List ℚ)) (fvs : Nat → List ℚ)
    (positionsAfter : List (List ℚ)) (bestFit : ℚ) (logs : List LogEntry) :
    Except String FssResult :=
  if logs = [] then
    .ok { algorithm := "fss", anomaly_score := 0, priority_events := [],
          feature_importance := [] }
  else
    let ex := fss_extractFeatures logs
    if ex.1 = [] then
      .ok { algorithm := "fss", anomaly_score := 0, priority_events := [],
            feature_importance := [] }
    else
      let st := fss_afterLoop iters bestUpd fvs
      match st.1, st.2 with
      | none, none => .error "NameError: fitness_values is not defined"
      | bp, fv =>
        let pos := match bp with
          | some p => p
          | none => positionsAfter.getD (npArgmax (fv.getD [])) []
        let events := fss_priorityEvents pos logs ex.1 ex.2
        let scores := fss_calculateAnomalyScores pos ex.1
        let maxAnomaly := if scores = [] then 0 else npMax scores
        let perc : ℚ := (((List.range scores.length).filter
          (fun i => 3/5 < scores.getD i 0)).length : ℚ) / (logs.length : ℚ)
        .ok { algorithm := "fss"
              anomaly_score := min 1 ((1/2) * maxAnomaly + (3/10) * perc + (1/5) * bestFit)
              priority_events := events
              feature_importance := fss_feature_names.zip pos }

/-! ## ACOLogAnalyzer (aco_test.py) -/

def aco_location_risk : List (String × ℚ) :=
  [("North Korea", 1), ("Russia", 9/10), ("Iran", 9/10),
   ("China", 4/5), ("Syria", 4/5), ("Ukraine", 7/10),
   ("Belarus", 7/10), ("Iraq", 3/5), ("Pakistan", 3/5)]

def aco_protocol_risk : List (String × ℚ) :=
  [("SMB", 9/10), ("Telnet", 9/10), ("RDP", 4/5), ("SSH", 7/10),
   ("FTP", 3/5), ("HTTP", 1/2), ("HTTPS", 2/5)]

def aco_port_risk : List (String × ℚ) :=
  [("445", 9/10), ("23", 9/10), ("3389", 4/5), ("22", 7/10),
   ("21", 3/5), ("1433", 4/5), ("3306", 7/10), ("4444", 1),
   ("5900", 7/10), ("135", 7/10), ("139", 7/10)]

def aco_event_risk : List (String × ℚ) :=
  [("lateral_movement", 1), ("data_exfiltration", 9/10),
   ("privilege_escalation", 9/10), ("file_download", 4/5),
   ("port_scan", 7/10), ("login", 3/5)]

def aco_process_risk : List (String × ℚ) :=
  [("ssh_brute", 9/10), ("mal_downloader", 9/10), ("worm.exe", 1),
   ("mimikatz", 1), ("pwdump", 9/10), ("scan", 7/10),
   ("crack", 4/5), ("exploit", 4/5)]

def aco_suspicious_file_patterns : List String :=
  ["exe", "bat", "ps1", "sh", "py", "pl", "js",
   "exploit", "tool", "malware", "hack", "crack",
   "trojan", "worm", "virus", "ransom", "backdoor"]

/-- Python `dict[key]` guarded by `key in dict`, over an assoc list. -/
def lookupRisk (tbl : List (String × ℚ)) (k : String) : ℚ :=
  match tbl.find? (fun p => p.1 = k) with
  | some p => p.2
  | none => 0

/-- A preprocessed log entry (aco_test.py 187-224).  `datetime` is the
parsed timestamp as an integer sort key (see `parseIsoKey`). -/
structure AcoLog where
  original_index : Nat := 0
  timestamp : String := ""
  source_ip : String := ""
  destination_ip : String := ""
  protocol : String := ""
  port : String := ""
  event_type : String := ""
  status : String := ""
  location : String := ""
  process : String := ""
  filename : String := ""
  username : String := ""
  bytes_sent : Nat := 0
  bytes_received : Nat := 0
  datetime : ℤ := 0
  deriving DecidableEq, Inhabited

/-- A model of `datetime.fromisoformat` for the uniformly formatted stamps
the log files use (`YYYY-MM-DDTHH:MM:SS`, trailing `Z` already stripped):
the digit string read as an integer, which orders exactly as the parsed
datetimes do for stamps of this shape.  `none` models the `ValueError` on a
malformed stamp.  Only the ordering and the sign of differences of this key
are consumed by the claims, never its absolute scale. -/
def parseIsoKey (s : String) : Option ℤ :=
  let cs := s.toList
  if cs.length = 19 ∧ cs.getD 4 ' ' = '-' ∧ cs.getD 7 ' ' = '-' ∧
      cs.getD 10 ' ' = 'T' ∧ cs.getD 13 ' ' = ':' ∧ cs.getD 16 ' ' = ':' ∧
      ([0, 1, 2, 3, 5, 6, 8, 9, 11, 12, 14, 15, 17, 18].all
        (fun i => (cs.getD i ' ').isDigit)) then
    some (((cs.filter Char.isDigit).foldl (fun a c => a * 10 + (c.toNat - 48)) 0 : Nat) : ℤ)
  else none

/-- `ACOLogAnalyzer._preprocess_logs`, one entry (aco_test.py 191-218):
`original_index` is the entry's position in the input list (the length of
`processed` at append time, before the sort); a timestamp that fails to
parse falls back to `datetime.now()`, abstracted as `nowKey`. -/
def aco_preprocessOne (nowKey : ℤ) (i : Nat) (log : LogEntry) : AcoLog :=
  let ts := stripZ log.timestamp
  { original_index := i
    timestamp := ts
    source_ip := log.source_ip
    destination_ip := log.destination_ip
    protocol := log.protocol
    port := toString log.destination_port
    event_type := log.event_type
    status := log.status
    location := log.location
    process := log.process_name
    filename := log.filename
    username := log.username
    bytes_sent := log.bytes_sent
    bytes_received := log.bytes_received
    datetime := (parseIsoKey ts).getD nowKey }

/-- `ACOLogAnalyzer._preprocess_logs` (aco_test.py 187-224): preprocess each
entry, then sort the processed list by `datetime` (a stable ascending sort,
as Python's `list.sort`).  Every later index of the ACO pipeline refers to
positions in this sorted list. -/
def aco_preprocess (nowKey : ℤ) (logs : List LogEntry) : List AcoLog :=
  sortAscBy (fun l => l.datetime)
    (logs.enum.map (fun p => aco_preprocessOne nowKey p.1 p.2))

/-- `ACOLogAnalyzer._calculate_node_attractiveness`, one node (aco_test.py
226-275): sum the risk contributions, divide by 5 and cap at 1. -/
def aco_nodeAttractivenessOne (log : AcoLog) : ℚ :=
  let score :=
    lookupRisk aco_location_risk log.location +
    lookupRisk aco_protocol_risk log.protocol +
    lookupRisk aco_port_risk log.port +
    lookupRisk aco_event_risk log.event_type +
    (match aco_process_risk.find? (fun p => strContains (strLower log.process) p.1) with
     | some p => p.2
     | none => 0) +
    (if strLower log.status = "failed" then 1/2 else 0) +
    (if strLower log.filename ≠ "" ∧
        aco_suspicious_file_patterns.any (fun p => strContains (strLower log.filename) p)
      then 7/10 else 0)
  min 1 (score / 5)

/-- `ACOLogAnalyzer._calculate_node_attractiveness` (aco_test.py 226-275). -/
def aco_nodeAttractiveness (logs : List AcoLog) : List ℚ :=
  logs.map aco_nodeAttractivenessOne

/-- The selection distribution of `_select_starting_node` (aco_test.py
277-283): when the attractiveness sum is 0 the node is drawn uniformly
(`random.randint`), otherwise with probability proportional to
attractiveness.  The guarded division is the content of the zero-denominator
claim; which node the generator then draws is irrelevant to it. -/
def aco_startProbs (attr : List ℚ) : List ℚ :=
  if attr.sum = 0 then attr.map (fun _ => 1 / (attr.length : ℚ))
  else attr.map (fun a => a / attr.sum)

/-- The `event_sequence` bonus table of `_calculate_proximity` (aco_test.py
348-358). -/
def aco_eventSequenceBonus (e1 e2 : String) : ℚ :=
  if e1 = "login" ∧ e2 = "file_download" then 2/5
  else if e1 = "file_download" ∧ e2 = "lateral_movement" then 1/2
  else if e1 = "login" ∧ e2 = "lateral_movement" then 3/10
  else if e1 = "port_scan" ∧ e2 = "login" then 3/10
  else if e1 = "port_scan" ∧ e2 = "lateral_movement" then 3/10
  else 0

/-- `ACOLogAnalyzer._calculate_proximity` (aco_test.py 320-365): a sum of
non-negative bonuses, capped at 1.  The time difference is in the units of
the `datetime` key. -/
def aco_proximity (l1 l2 : AcoLog) : ℚ :=
  let td := l2.datetime - l1.datetime
  let p :=
    (if l1.source_ip ≠ "" ∧ l1.source_ip = l2.source_ip then 3/10 else 0) +
    (if l1.destination_ip ≠ "" ∧ l1.destination_ip = l2.destination_ip then 3/10 else 0) +
    (if l1.protocol ≠ "" ∧ l1.protocol = l2.protocol then 1/10 else 0) +
    (if l1.location ≠ "" ∧ l1.location = l2.location then 1/5 else 0) +
    (if 0 ≤ td ∧ td ≤ 300 then 3/10 else if 300 < td ∧ td ≤ 1800 then 1/10 else 0) +
    aco_eventSequenceBonus l1.event_type l2.event_type +
    (if l1.destination_ip ≠ "" ∧ l1.destination_ip = l2.source_ip then 1/2 else 0)
  min 1 p

/-- The path-score accumulation of the ant walk (aco_test.py 129-152):
the start node contributes its attractiveness, every later node its
attractiveness weighted by proximity to the previous node. -/
def aco_pathScoreFrom (logs : List AcoLog) : Nat → List Nat → ℚ
  | _, [] => 0
  | cur, nxt :: rest =>
      aco_nodeAttractivenessOne (logs.getD nxt default) *
        aco_proximity (logs.getD cur default) (logs.getD nxt default) +
      aco_pathScoreFrom logs nxt rest

/-- Score of a whole ant path (aco_test.py 129-152). -/
def aco_pathScore (logs : List AcoLog) : List Nat → ℚ
  | [] => 0
  | s :: rest => aco_nodeAttractivenessOne (logs.getD s default) + aco_pathScoreFrom logs s rest

/-- The per-ant deposit amount `path_score / len(path) if path else 0`
(aco_test.py 155). -/
def aco_antScore (logs : List AcoLog) (path : List Nat) : ℚ :=
  if path = [] then 0 else aco_pathScore logs path / (path.length : ℚ)

/-- The pheromone matrix, as a total function on node indices. -/
def Phero : Type := Nat → Nat → ℚ

/-- The initial matrix `np.ones((n, n)) * 0.1` (aco_test.py 115). -/
def aco_pheroInit : Phero := fun _ _ => 1/10

/-- Evaporation `pheromones * (1 - 0.1)` (aco_test.py 164, default
`evaporation = 0.1`). -/
def aco_evaporate (P : Phero) : Phero := fun i j => P i j * (1 - 1/10)

/-- One in-place addition `pheromones[i, j] += s`. -/
def aco_bump (P : Phero) (i j : Nat) (s : ℚ) : Phero :=
  fun a b => if a = i ∧ b = j then P a b + s else P a b

/-- The symmetric deposit along consecutive path edges (aco_test.py
167-171): `pheromones[path[i], path[i+1]] += score` and its mirror. -/
def aco_depositPath (s : ℚ) : List Nat → Phero → Phero
  | i :: j :: rest, P => aco_depositPath s (j :: rest) (aco_bump (aco_bump P i j s) j i s)
  | _, P => P

/-- One iteration's pheromone update (aco_test.py 163-171): evaporate, then
deposit each ant's score along its path. -/
def aco_iterUpdate (logs : List AcoLog) (paths : List (List Nat)) (P : Phero) : Phero :=
  paths.foldl (fun Q p => aco_depositPath (aco_antScore logs p) p Q) (aco_evaporate P)

/-- The pheromone matrix after a sequence of iterations, each given by the
list of paths its ants walked (the walks themselves are what the random
generator produced), starting from the constant initial matrix. -/
def aco_runPheromones (logs : List AcoLog) (iters : List (List (List Nat))) : Phero :=
  iters.foldl (fun P paths => aco_iterUpdate logs paths P) aco_pheroInit

structure AcoCluster where
  log_indices : List Nat
  risk_score : ℚ
  source_ip : String
  size : Nat
  deriving DecidableEq, Inhabited

/-- The cluster-membership pass of `_extract_clusters` (aco_test.py
374-385): scan `i` upward, a yet-unvisited `i` opens a cluster holding `i`
and every unvisited `j ≠ i` with `pheromones[i, j] > threshold`. -/
def aco_buildClusters (P : Phero) (n : Nat) (threshold : ℚ) : List (List Nat) :=
  ((List.range n).foldl
    (fun acc i =>
      if i ∈ acc.2 then acc
      else
        let members := i :: (List.range n).filter
          (fun j => j ≠ i ∧ j ∉ acc.2 ∧ threshold < P i j)
        (acc.1 ++ [members], acc.2 ++ members))
    (([] : List (List Nat)), ([] : List Nat))).1

/-- The per-cluster risk score (aco_test.py 388-398). -/
def aco_clusterRisk (logs : List AcoLog) (cluster : List Nat) : ℚ :=
  let total := (cluster.map (fun idx =>
    (if strLower (logs.getD idx default).status = "failed" then 3/10 else 0) +
    lookupRisk aco_location_risk (logs.getD idx default).location +
    lookupRisk aco_event_risk (logs.getD idx default).event_type)).sum
  min 1 (total / (cluster.length : ℚ))

/-- `ACOLogAnalyzer._extract_clusters` (aco_test.py 367-410), threshold 0.5:
clusters of more than one log, sorted by risk score descending.  All indices
are positions in the sorted preprocessed list. -/
def aco_extractClusters (P : Phero) (logs : List AcoLog) : List AcoCluster :=
  sortDescBy (fun c => c.risk_score) <|
    (aco_buildClusters P logs.length (1/2)).filterMap (fun c =>
      if 1 < c.length then
        some { log_indices := c
               risk_score := aco_clusterRisk logs c
               source_ip := (logs.getD (c.getD 0 0) default).source_ip
               size := c.length }
      else none)

structure AcoPattern where
  pattern_name : String
  severity : ℚ
  cluster_id : Nat
  log_indices : List Nat
  deriving DecidableEq, Inhabited

/-- `ACOLogAnalyzer._identify_attack_patterns` (aco_test.py 412-464).
`cluster_id` is the position of the cluster in the (already sorted) cluster
list, as `clusters.index(cluster)` computes for distinct clusters. -/
def aco_identifyAttackPatterns (clusters : List AcoCluster) (logs : List AcoLog) :
    List AcoPattern :=
  sortDescBy (fun p => p.severity) <| clusters.enum.filterMap (fun ci =>
    let cl := ci.2.log_indices.map (fun i => logs.getD i default)
    let hasFailedLogin := cl.any (fun l => l.event_type = "login" ∧ l.status = "failed")
    let hasDownload := cl.any (fun l => l.event_type = "file_download")
    let hasLateral := cl.any (fun l => l.event_type = "lateral_movement")
    let suspProcess := cl.any (fun l => l.process ≠ "" ∧
      aco_process_risk.any (fun p => strContains (strLower l.process) p.1))
    let tagged : Option (String × ℚ) :=
      if hasFailedLogin ∧ hasDownload ∧ hasLateral then some ("Complete Attack Chain", 9/10)
      else if hasDownload ∧ hasLateral then some ("Malware Spread", 7/10)
      else if hasFailedLogin ∧ suspProcess then some ("Brute Force Attempt", 3/5)
      else if hasLateral then some ("Lateral Movement", 7/10)
      else if hasDownload ∧ suspProcess then some ("Malware Download", 3/5)
      else none
    tagged.map (fun t =>
      { pattern_name := t.1, severity := t.2, cluster_id := ci.1,
        log_indices := ci.2.log_indices }))

/-- `np.argsort(vals)[::-1]`: indices sorted by value descending (numpy's
default argsort leaves tie order unspecified; the model sorts stably, and no
claim depends on tie order). -/
def argsortDesc (vals : List ℚ) : List Nat :=
  sortDescBy (fun i => vals.getD i 0) (List.range vals.length)

structure AcoSuspicious where
  index : Nat
  attractiveness : ℚ
  source_ip : String
  event_type : String
  destination_ip : String
  timestamp : String
  location : String
  process : String
  deriving DecidableEq, Inhabited

/-- `ACOLogAnalyzer._extract_suspicious_logs` (aco_test.py 466-485): top 5
nodes by attractiveness, kept when above 0.3.  The reported `index` is the
node's position in the sorted preprocessed list. -/
def aco_extractSuspiciousLogs (attr : List ℚ) (logs : List AcoLog) : List AcoSuspicious :=
  ((argsortDesc attr).take 5).filterMap (fun idx =>
    if 3/10 < attr.getD idx 0 then
      some { index := idx
             attractiveness := attr.getD idx 0
             source_ip := (logs.getD idx default).source_ip
             event_type := (logs.getD idx default).event_type
             destination_ip := (logs.getD idx default).destination_ip
             timestamp := (logs.getD idx default).timestamp
             location := (logs.getD idx default).location
             process := (logs.getD idx default).process }
    else none)

/-- `ACOLogAnalyzer._calculate_threat_score` (aco_test.py 487-508). -/
def aco_threatScore (clusters : List AcoCluster) (patterns : List AcoPattern)
    (suspicious : List AcoSuspicious) : ℚ :=
  let c := if clusters = [] then 0 else npMax (clusters.map (fun x => x.risk_score)) * (2/5)
  let p := if patterns = [] then 0 else npMax (patterns.map (fun x => x.severity)) * (2/5)
  let s := if suspicious = [] then 0
           else npMax (suspicious.map (fun x => x.attractiveness)) * (1/5)
  min 1 (c + p + s)

structure AcoResult where
  algorithm : String
  threat_score : ℚ
  clusters : List AcoCluster
  attack_patterns : List AcoPattern
  most_suspicious_logs : List AcoSuspicious
  deriving DecidableEq, Inhabited

/-- `ACOLogAnalyzer.analyze` (aco_test.py 88-185) with the ant walks
abstracted: `iters` lists, for each of the `iterations` loop turns, the
paths the ants walked (what the random generator produced); everything
else — preprocessing, attractiveness, the pheromone updates, and the result
synthesis — follows the source. -/
def aco_analyze (nowKey : ℤ) (iters : List (List (List Nat))) (logs : List LogEntry) :
    AcoResult :=
  if logs = [] then
    { algorithm := "aco", threat_score := 0, clusters := [],
      attack_patterns := [], most_suspicious_logs := [] }
  else
    let pl := aco_preprocess nowKey logs
    let attr := aco_nodeAttractiveness pl
    let P := aco_runPheromones pl iters
    let clusters := aco_extractClusters P pl
    let patterns := aco_identifyAttackPatterns clusters pl
    let suspicious := aco_extractSuspiciousLogs attr pl
    { algorithm := "aco"
      threat_score := aco_threatScore clusters patterns suspicious
      clusters := clusters
      attack_patterns := patterns
      most_suspicious_logs := suspicious }

/-! ## Loop control of the five main loops

The per-iteration best fitness values that the stochastic iterations append
to the trace are abstracted by `f : Nat → ℚ`; the loop structure — at most
`maxIter` iterations, a `break` exactly when the strategy's stop test
succeeds on the trace so far — is the source's. -/

/-- The early-convergence test of the PSO loop (pso_test.py 161-163):
`iteration > 10 and abs(optimization_path[-1] - optimization_path[-10]) < 0.001`. -/
def pso_converged (iteration : Nat) (trace : List ℚ) : Bool :=
  decide (10 < iteration) &&
  decide (|trace.reverse.getD 0 0 - trace.reverse.getD 9 0| < 1/1000)

/-- The early-convergence test of the firefly loop (firefly_test.py
186-188), identical to the PSO one on the `convergence` trace. -/
def firefly_converged (iteration : Nat) (trace : List ℚ) : Bool :=
  decide (10 < iteration) &&
  decide (|trace.reverse.getD 0 0 - trace.reverse.getD 9 0| < 1/1000)

/-- The ABC main loop (abc_test.py 88-136) contains no `break`: its stop
test never fires. -/
def abc_loopStop : Nat → List ℚ → Bool := fun _ _ => false

/-- The ACO main loop (aco_test.py 122-171) contains no `break`. -/
def aco_loopStop : Nat → List ℚ → Bool := fun _ _ => false

/-- The FSS main loop (fss_test.py 109-218) contains no `break`. -/
def fss_loopStop : Nat → List ℚ → Bool := fun _ _ => false

/-- Run a main loop: iteration `it` appends its best value `f it` to the
trace, then the stop test may `break`.  Returns (number of loop bodies
executed, final trace). -/
def runLoopT (stop : Nat → List ℚ → Bool) (f : Nat → ℚ) :
    Nat → Nat → List ℚ → Nat × List ℚ
  | _, 0, tr => (0, tr)
  | it, r + 1, tr =>
    let tr2 := tr ++ [f it]
    if stop it tr2 then (1, tr2)
    else
      let q := runLoopT stop f (it + 1) r tr2
      (q.1 + 1, q.2)

/-- Number of loop bodies a main loop with budget `maxIter` executes,
starting from the trace of the initial population's best. -/
def loopIters (stop : Nat → List ℚ → Bool) (f : Nat → ℚ) (maxIter : Nat)
    (initTrace : List ℚ) : Nat :=
  (runLoopT stop f 0 maxIter initTrace).1

/-! ## Concrete inputs used by the claims -/

/-- The single obviously high-risk entry of the spec's testable property:
`location="North Korea"`, `destination_port=445`, `process_name="mimikatz"`,
`status="failed"`, and no other fields. -/
def c1log : LogEntry :=
  { location := "North Korea", destination_port := 445,
    process_name := "mimikatz", status := "failed" }

/-- A failed login from an internal source IP (used against the firefly
brute-force claim): three copies of it are three failed logins sharing one
source IP. -/
def c4log : LogEntry :=
  { source_ip := "192.168.1.5", destination_ip := "192.168.1.6",
    event_type := "login", status := "failed" }

/-- A best position the firefly search can produce (a vertex of
`[0,1]^16`): all weight on the location dimension, none on the dimensions a
failed login activates. -/
def c4pos : List ℚ := [1, 0, 0, 0, 0, 0, 0, 0, 0, 0, 0, 0, 0, 0, 0, 0]

/-! ## Helper lemmas about the numeric and list helpers -/

lemma le_foldl_max : ∀ (l : List ℚ) (a : ℚ), a ≤ l.foldl max a := by
  intro l
  induction l with
  | nil => intro a; exact le_refl a
  | cons c t ih => intro a; exact le_trans (le_max_left a c) (ih (max a c))

lemma foldl_max_le_mono : ∀ (l : List ℚ) {a b : ℚ}, a ≤ b → l.foldl max a ≤ l.foldl max b := by
  intro l
  induction l with
  | nil => intro a b h; exact h
  | cons c t ih => intro a b h; exact ih (max_le_max h (le_refl c))

lemma mem_le_foldl_max : ∀ (l : List ℚ) (a : ℚ) {x : ℚ}, x ∈ l → x ≤ l.foldl max a := by
  intro l
  induction l with
  | nil => intro a x h; cases h
  | cons c t ih =>
    intro a x h
    rcases List.mem_cons.mp h with rfl | h2
    · exact le_trans (le_max_right a x) (le_foldl_max t (max a x))
    · exact ih (max a c) h2

lemma le_npMax_of_mem {x : ℚ} {l : List ℚ} (h : x ∈ l) : x ≤ npMax l := by
  cases l with
  | nil => cases h
  | cons c t =>
    rcases List.mem_cons.mp h with rfl | h2
    · exact le_foldl_max t x
    · exact mem_le_foldl_max t c h2

lemma npMax_nonneg {l : List ℚ} (h : ∀ x ∈ l, 0 ≤ x) : 0 ≤ npMax l := by
  cases l with
  | nil => exact le_refl 0
  | cons c t =>
    exact le_trans (h c (List.mem_cons_self _ _)) (le_npMax_of_mem (List.mem_cons_self _ _))

lemma mem_zipWith_mul {x : ℚ} : ∀ {a b : List ℚ},
    x ∈ List.zipWith (fun u v => u * v) a b → ∃ u v, u ∈ a ∧ v ∈ b ∧ x = u * v := by
  intro a
  induction a with
  | nil => intro b h; cases h
  | cons u t ih =>
    intro b h
    cases b with
    | nil => cases h
    | cons v s =>
      rcases List.mem_cons.mp h with rfl | hx
      · exact ⟨u, v, List.mem_cons_self _ _, List.mem_cons_self _ _, rfl⟩
      · obtain ⟨u', v', hu, hv, hx⟩ := ih hx
        exact ⟨u', v', List.mem_cons_of_mem _ hu, List.mem_cons_of_mem _ hv, hx⟩

lemma dot_nonneg {f w : List ℚ} (hf : ∀ x ∈ f, 0 ≤ x) (hw : ∀ x ∈ w, 0 ≤ x) :
    0 ≤ dot f w := by
  apply List.sum_nonneg
  intro x hx
  obtain ⟨u, v, hu, hv, rfl⟩ := mem_zipWith_mul hx
  exact mul_nonneg (hf u hu) (hw v hv)

lemma insertDescBy_mem_self {x : α} {key : α → ℚ} : ∀ {l : List α}, x ∈ insertDescBy key x l := by
  intro l
  induction l with
  | nil => exact List.mem_cons_self _ _
  | cons c t ih =>
    rw [insertDescBy]
    by_cases hc : key x ≤ key c
    · rw [if_pos hc]; exact List.mem_cons_of_mem _ ih
    · rw [if_neg hc]; exact List.mem_cons_self _ _

lemma insertDescBy_mem_of_mem {x y : α} {key : α → ℚ} : ∀ {l : List α},
    y ∈ l → y ∈ insertDescBy key x l := by
  intro l
  induction l with
  | nil => intro h; cases h
  | cons c t ih =>
    intro h
    rw [insertDescBy]
    by_cases hc : key x ≤ key c
    · rw [if_pos hc]
      rcases List.mem_cons.mp h with rfl | h2
      · exact List.mem_cons_self _ _
      · exact List.mem_cons_of_mem _ (ih h2)
    · rw [if_neg hc]
      exact List.mem_cons_of_mem _ h

lemma foldl_insertDescBy_mem {key : α → ℚ} :
    ∀ (t : List α) (acc : List α) {x : α}, x ∈ acc →
      x ∈ t.foldl (fun a y => insertDescBy key y a) acc := by
  intro t
  induction t with
  | nil => intro acc x h; exact h
  | cons d s ih => intro acc x h; exact ih _ (insertDescBy_mem_of_mem h)

lemma mem_sortDescBy_of_mem {x : α} {key : α → ℚ} {l : List α} (h : x ∈ l) :
    x ∈ sortDescBy key l := by
  rw [sortDescBy]
  have main : ∀ (t : List α) (acc : List α), x ∈ t ∨ x ∈ acc →
      x ∈ t.foldl (fun a y => insertDescBy key y a) acc := by
    intro t
    induction t with
    | nil =>
      intro acc h2
      rcases h2 with h3 | h3
      · cases h3
      · exact h3
    | cons c s ih =>
      intro acc h2
      rcases h2 with h3 | h3
      · rcases List.mem_cons.mp h3 with rfl | h4
        · exact foldl_insertDescBy_mem s _ insertDescBy_mem_self
        · exact ih _ (Or.inl h4)
      · exact ih _ (Or.inr (insertDescBy_mem_of_mem h3))
  exact main l [] (Or.inl h)

lemma getD_default_or_mem (l : List α) (i : Nat) (d : α) : l.getD i d = d ∨ l.getD i d ∈ l := by
  induction l generalizing i with
  | nil => exact Or.inl rfl
  | cons c t ih =>
    cases i with
    | zero => exact Or.inr (List.mem_cons_self _ _)
    | succ k =>
      rcases ih k with h | h
      · exact Or.inl h
      · exact Or.inr (List.mem_cons_of_mem _ h)

lemma take_ne_nil {l : List α} (h : l ≠ []) (n : Nat) (hn : n ≠ 0) : l.take n ≠ [] := by
  cases l with
  | nil => exact absurd rfl h
  | cons c t =>
    cases n with
    | zero => exact absurd rfl hn
    | succ k => simp

/-! ## Concrete inputs for the ant-colony index claim -/

/-- A high-risk entry (mimikatz, port 445, North Korea, failed) whose
timestamp is LATER than `c9logB`'s: it sits at position 0 of the input but
position 1 of the timestamp-sorted list. -/
def c9logA : LogEntry :=
  { timestamp := "2024-01-01T10:00:00", source_ip := "1.2.3.4",
    destination_port := 445, status := "failed",
    location := "North Korea", process_name := "mimikatz" }

/-- A benign entry with an earlier timestamp than `c9logA`'s. -/
def c9logB : LogEntry :=
  { timestamp := "2024-01-01T09:00:00", source_ip := "192.168.1.9" }

/-! ## The claims -/

/-- C8: for the empty log list, every one of the five strategies' analyze
functions returns its zero result — aggregate score 0 and an empty
flagged-entry list — without error, whatever the abstracted stochastic
parameters are (they are never consulted on the empty branch). -/
theorem c8_empty_input_zero_result :
    (∀ maxIter cand, abc_analyze maxIter cand [] =
      .ok { algorithm := "abc", anomaly_score := 0, detected_anomalies := [], confidence := 0 }) ∧
    (∀ pos, pso_analyze pos [] =
      { algorithm := "pso", risk_score := 0, findings := [] }) ∧
    (∀ pos, firefly_analyze pos [] =
      { algorithm := "firefly", alert_score := 0, critical_events := [],
        suspicious_patterns := [] }) ∧
    (∀ iters bestUpd fvs positionsAfter bestFit,
      fss_analyze iters bestUpd fvs positionsAfter bestFit [] =
        .ok { algorithm := "fss", anomaly_score := 0, priority_events := [],
              feature_importance := [] }) ∧
    (∀ nowKey iters, aco_analyze nowKey iters [] =
      { algorithm := "aco", threat_score := 0, clusters := [],
        attack_patterns := [], most_suspicious_logs := [] }) :=
  ⟨fun _ _ => rfl, fun _ => rfl, fun _ => rfl, fun _ _ _ _ _ => rfl, fun _ _ => rfl⟩

/-- C2: with an iteration budget of 0 on a non-empty log list, the
bee-colony strategy crashes (`best_solution` is still `None` when
`_evaluate_best_solution` multiplies the feature matrix by it — `TypeError`)
and the fish-school strategy crashes (`fitness_values` is read although the
loop body never assigned it — `NameError`), for every behaviour of the
abstracted stochastic parameters; the claim's promised best-of-initial-
population result is never produced. -/
theorem c2_zero_budget_crashes :
    (∀ cand, abc_analyze 0 cand [c1log] = .error "TypeError: feature_vectors * None") ∧
    (∀ bestUpd fvs positionsAfter bestFit,
      fss_analyze 0 bestUpd fvs positionsAfter bestFit [{ source_ip := "1.2.3.4" }] =
        .error "NameError: fitness_values is not defined") :=
  ⟨fun _ => rfl, fun _ _ _ _ => rfl⟩

/-- C9 evidence: on the two-entry list `[c9logA, c9logB]` (first entry
high-risk but timestamped later), the ant-colony analyze reports its one
suspicious log with `index = 1` — the entry's position in the
timestamp-sorted internal list — while the entry's original position, which
the preserved-but-unused `original_index` field records, is 0; index 1 of
the caller's input list is the benign entry.  The claim's promised index map
back to the original list is never applied. -/
theorem c9_aco_reports_sorted_index :
    ((aco_analyze 0 [] [c9logA, c9logB]).most_suspicious_logs.map (fun s => s.index) = [1]) ∧
    ((aco_preprocess 0 [c9logA, c9logB]).getD 1 default).original_index = 0 ∧
    ((aco_preprocess 0 [c9logA, c9logB]).getD 1 default).process = "mimikatz" ∧
    ([c9logA, c9logB].getD 1 default).process_name = "" := by
  refine ⟨by decide, by decide, by decide, by decide⟩

/-- C1 counterexample: the fish-school strategy never flags the single
obviously high-risk entry.  Its feature extractor skips every entry that has
neither `source_ip` nor `event_type` (fss_test.py 293-295) — the canonical
entry has only `location`, `destination_port`, `process_name` and `status` —
so the feature matrix comes back empty and `analyze` takes its empty-features
early return: no flagged entries, whatever the loop parameters were. -/
theorem c1_counterexample_fss_skips_entry :
    fss_extractFeatures [c1log] = ([], []) ∧
    fss_analyze 3 (fun _ => none) (fun _ => []) [] 0 [c1log] =
      .ok { algorithm := "fss", anomaly_score := 0, priority_events := [],
            feature_importance := [] } :=
  ⟨rfl, rfl⟩

/-- C3 counterexample: the renormalization of `_produce_new_solution`
(abc_test.py 262) is not guarded.  From the degenerate one-hot solution
`e₀`, comparing against a solution with 0 in dimension 0 and `phi = -1`
(both in the generator's range), the perturbed value clamps to 0, the
solution becomes all-zero, and `solution /= solution.sum()` divides by
zero — a non-finite (NaN) result, modelled by `none`. -/
theorem c3_counterexample_abc_renormalization :
    abc_produceNewSolution [1, 0, 0, 0, 0, 0, 0, 0] [0, 1, 0, 0, 0, 0, 0, 0] 0 (-1) = none := by
  decide

/-- C5 counterexample: a run whose best fitness never changes is converged
(the trailing-10 test holds from iteration 11 on, as the PSO loop shows by
stopping after 12 bodies), yet the bee-colony, ant-colony and fish-school
loops still execute all 15 of their 15 budgeted iterations: their loops have
no early-convergence stop. -/
theorem c5_counterexample_no_early_stop :
    loopIters abc_loopStop (fun _ => 0) 15 [0] = 15 ∧
    loopIters aco_loopStop (fun _ => 0) 15 [0] = 15 ∧
    loopIters fss_loopStop (fun _ => 0) 15 [0] = 15 ∧
    loopIters pso_converged (fun _ => 0) 15 [0] = 12 ∧
    pso_converged 11 (List.replicate 13 0) = true := by
  refine ⟨by decide, by decide, by decide, by decide, by decide⟩

/-- C7 counterexample: a normalized score can DECREASE when a single feature
value increases — of another log entry.  With weight 1 and two one-feature
entries at 0.5 each, both scores normalize to 1; raising the second entry's
feature to 1 raises the shared maximum and drops the first entry's score to
0.5. -/
theorem c7_counterexample_cross_entry_decrease :
    pso_calculateRiskScores [1] [[1/2], [1/2]] = [1, 1] ∧
    pso_calculateRiskScores [1] [[1/2], [1]] = [1/2, 1] ∧
    (1 : ℚ)/2 < 1 := by
  refine ⟨by decide, by decide, by norm_num⟩

lemma runLoopT_le (stop : Nat → List ℚ → Bool) (f : Nat → ℚ) :
    ∀ (r it : Nat) (tr : List ℚ), (runLoopT stop f it r tr).1 ≤ r := by
  intro r
  induction r with
  | zero => intro it tr; simp [runLoopT]
  | succ n ih =>
    intro it tr
    rw [runLoopT]
    cases hs : stop it (tr ++ [f it]) with
    | true => simp
    | false =>
      simp only [Bool.false_eq_true, if_false]
      have := ih (it + 1) (tr ++ [f it])
      omega

lemma runLoopT_noStop (f : Nat → ℚ) :
    ∀ (r it : Nat) (tr : List ℚ), (runLoopT (fun _ _ => false) f it r tr).1 = r := by
  intro r
  induction r with
  | zero => intro it tr; simp [runLoopT]
  | succ n ih =>
    intro it tr
    rw [runLoopT]
    simp only [Bool.false_eq_true, if_false]
    rw [ih (it + 1) (tr ++ [f it])]

lemma runLoopT_pos (stop : Nat → List ℚ → Bool) (f : Nat → ℚ) (r it : Nat) (tr : List ℚ) :
    1 ≤ (runLoopT stop f it (r + 1) tr).1 := by
  rw [runLoopT]
  cases hs : stop it (tr ++ [f it]) with
  | true => simp
  | false => simp

lemma runLoopT_early_fired (stop : Nat → List ℚ → Bool) (f : Nat → ℚ) :
    ∀ (r it : Nat) (tr : List ℚ), (runLoopT stop f it r tr).1 < r →
      stop (it + (runLoopT stop f it r tr).1 - 1) (runLoopT stop f it r tr).2 = true := by
  intro r
  induction r with
  | zero => intro it tr h; simp [runLoopT] at h
  | succ n ih =>
    intro it tr h
    rw [runLoopT] at h ⊢
    cases hs : stop it (tr ++ [f it]) with
    | true => simpa using hs
    | false =>
      rw [hs] at h
      simp only [Bool.false_eq_true, if_false] at h ⊢
      have h2 : (runLoopT stop f (it + 1) n (tr ++ [f it])).1 < n := by omega
      have hfired := ih (it + 1) (tr ++ [f it]) h2
      have hge : 1 ≤ (runLoopT stop f (it + 1) n (tr ++ [f it])).1 := by
        cases n with
        | zero => omega
        | succ m => exact runLoopT_pos stop f m (it + 1) (tr ++ [f it])
      have harith : it + 1 + (runLoopT stop f (it + 1) n (tr ++ [f it])).1 - 1 =
          it + ((runLoopT stop f (it + 1) n (tr ++ [f it])).1 + 1) - 1 := by omega
      rw [harith] at hfired
      exact hfired

lemma runLoopT_fires_now (stop : Nat → List ℚ → Bool) (f : Nat → ℚ) (it r : Nat)
    (tr : List ℚ) (h : stop it (tr ++ [f it]) = true) :
    (runLoopT stop f it (r + 1) tr).1 = 1 := by
  rw [runLoopT]
  simp [h]

/-- C5 (amended): every main loop executes at most `max_iterations` bodies;
the bee-colony, ant-colony and fish-school loops, which contain no `break`,
execute exactly `max_iterations`; a loop that stopped early did so because
its stop test fired at the last iteration it executed, on the trace built so
far; a loop whose test fires at the current iteration stops at once; and the
particle-swarm and firefly convergence tests — iteration > 10 and the best
trace having moved less than 0.001 over the trailing entries — are one and
the same function. -/
theorem c5_loop_iteration_contract :
    (∀ stop f maxIter tr, loopIters stop f maxIter tr ≤ maxIter) ∧
    (∀ f maxIter tr,
      loopIters abc_loopStop f maxIter tr = maxIter ∧
      loopIters aco_loopStop f maxIter tr = maxIter ∧
      loopIters fss_loopStop f maxIter tr = maxIter) ∧
    (∀ stop f maxIter tr, loopIters stop f maxIter tr < maxIter →
      stop (loopIters stop f maxIter tr - 1) (runLoopT stop f 0 maxIter tr).2 = true) ∧
    (∀ f maxIter tr it, pso_converged it (tr ++ [f it]) = true →
      (runLoopT pso_converged f it (maxIter + 1) tr).1 = 1) ∧
    pso_converged = firefly_converged := by
  refine ⟨?_, ?_, ?_, ?_, rfl⟩
  · intro stop f maxIter tr
    exact runLoopT_le stop f maxIter 0 tr
  · intro f maxIter tr
    exact ⟨runLoopT_noStop f maxIter 0 tr, runLoopT_noStop f maxIter 0 tr,
           runLoopT_noStop f maxIter 0 tr⟩
  · intro stop f maxIter tr h
    have := runLoopT_early_fired stop f maxIter 0 tr h
    simpa [loopIters] using this
  · intro f maxIter tr it h
    exact runLoopT_fires_now pso_converged f it maxIter tr h

/-! ## Pheromone invariant lemmas -/

/-- The invariant of the ant-colony pheromone matrix: symmetric and
non-negative everywhere. -/
def pheroInv (P : Phero) : Prop :=
  (∀ i j, P i j = P j i) ∧ (∀ i j, 0 ≤ P i j)

lemma lookupRisk_nonneg {tbl : List (String × ℚ)} (h : ∀ p ∈ tbl, 0 ≤ p.2) (k : String) :
    0 ≤ lookupRisk tbl k := by
  rw [lookupRisk]
  cases hf : tbl.find? (fun p => p.1 = k) with
  | none => exact le_refl 0
  | some p => exact h p (List.mem_of_find?_eq_some hf)

lemma aco_nodeAttractivenessOne_nonneg (log : AcoLog) : 0 ≤ aco_nodeAttractivenessOne log := by
  rw [aco_nodeAttractivenessOne]
  apply le_min (by norm_num)
  apply div_nonneg _ (by norm_num)
  have h1 : 0 ≤ lookupRisk aco_location_risk log.location :=
    lookupRisk_nonneg (by decide) _
  have h2 : 0 ≤ lookupRisk aco_protocol_risk log.protocol :=
    lookupRisk_nonneg (by decide) _
  have h3 : 0 ≤ lookupRisk aco_port_risk log.port :=
    lookupRisk_nonneg (by decide) _
  have h4 : 0 ≤ lookupRisk aco_event_risk log.event_type :=
    lookupRisk_nonneg (by decide) _
  have h5 : (0:ℚ) ≤ match aco_process_risk.find? (fun p => strContains (strLower log.process) p.1) with
      | some p => p.2
      | none => 0 := by
    cases hf : aco_process_risk.find? (fun p => strContains (strLower log.process) p.1) with
    | none => exact le_refl 0
    | some p =>
      have : ∀ q ∈ aco_process_risk, (0:ℚ) ≤ q.2 := by decide
      exact this p (List.mem_of_find?_eq_some hf)
  have h6 : (0:ℚ) ≤ if strLower log.status = "failed" then 1/2 else 0 := by positivity
  have h7 : (0:ℚ) ≤ if strLower log.filename ≠ "" ∧
      aco_suspicious_file_patterns.any (fun p => strContains (strLower log.filename) p)
      then 7/10 else 0 := by positivity
  linarith

lemma aco_eventSequenceBonus_nonneg (e1 e2 : String) : 0 ≤ aco_eventSequenceBonus e1 e2 := by
  rw [aco_eventSequenceBonus]
  split_ifs <;> norm_num

lemma aco_proximity_nonneg (l1 l2 : AcoLog) : 0 ≤ aco_proximity l1 l2 := by
  rw [aco_proximity]
  apply le_min (by norm_num)
  have hb := aco_eventSequenceBonus_nonneg l1.event_type l2.event_type
  have h1 : (0:ℚ) ≤ if l1.source_ip ≠ "" ∧ l1.source_ip = l2.source_ip then 3/10 else 0 := by
    positivity
  have h2 : (0:ℚ) ≤ if l1.destination_ip ≠ "" ∧ l1.destination_ip = l2.destination_ip
      then 3/10 else 0 := by positivity
  have h3 : (0:ℚ) ≤ if l1.protocol ≠ "" ∧ l1.protocol = l2.protocol then 1/10 else 0 := by
    positivity
  have h4 : (0:ℚ) ≤ if l1.location ≠ "" ∧ l1.location = l2.location then 1/5 else 0 := by
    positivity
  have h5 : (0:ℚ) ≤ if 0 ≤ l2.datetime - l1.datetime ∧ l2.datetime - l1.datetime ≤ 300
      then 3/10
      else if 300 < l2.datetime - l1.datetime ∧ l2.datetime - l1.datetime ≤ 1800
      then 1/10 else 0 := by
    split_ifs <;> norm_num
  have h6 : (0:ℚ) ≤ if l1.destination_ip ≠ "" ∧ l1.destination_ip = l2.source_ip
      then 1/2 else 0 := by positivity
  linarith

lemma aco_pathScoreFrom_nonneg (logs : List AcoLog) :
    ∀ (cur : Nat) (rest : List Nat), 0 ≤ aco_pathScoreFrom logs cur rest := by
  intro cur rest
  induction rest generalizing cur with
  | nil => exact le_refl 0
  | cons nxt t ih =>
    rw [aco_pathScoreFrom]
    have := mul_nonneg (aco_nodeAttractivenessOne_nonneg (logs.getD nxt default))
      (aco_proximity_nonneg (logs.getD cur default) (logs.getD nxt default))
    have := ih nxt
    linarith

lemma aco_pathScore_nonneg (logs : List AcoLog) (path : List Nat) :
    0 ≤ aco_pathScore logs path := by
  cases path with
  | nil => exact le_refl 0
  | cons s rest =>
    rw [aco_pathScore]
    have := aco_nodeAttractivenessOne_nonneg (logs.getD s default)
    have := aco_pathScoreFrom_nonneg logs s rest
    linarith

lemma aco_antScore_nonneg (logs : List AcoLog) (path : List Nat) :
    0 ≤ aco_antScore logs path := by
  rw [aco_antScore]
  split_ifs with h
  · exact le_refl 0
  · exact div_nonneg (aco_pathScore_nonneg logs path) (by positivity)

lemma pheroInv_evaporate {P : Phero} (h : pheroInv P) : pheroInv (aco_evaporate P) := by
  obtain ⟨hs, hn⟩ := h
  constructor
  · intro i j
    show P i j * (1 - 1/10) = P j i * (1 - 1/10)
    rw [hs i j]
  · intro i j
    show 0 ≤ P i j * (1 - 1/10)
    have := hn i j
    nlinarith

lemma pheroInv_bump_pair {P : Phero} (h : pheroInv P) (i j : Nat) {s : ℚ} (hs : 0 ≤ s) :
    pheroInv (aco_bump (aco_bump P i j s) j i s) := by
  obtain ⟨hsym, hn⟩ := h
  have formula : ∀ x y, aco_bump (aco_bump P i j s) j i s x y =
      P x y + (if x = i ∧ y = j then s else 0) + (if x = j ∧ y = i then s else 0) := by
    intro x y
    show (if x = j ∧ y = i then aco_bump P i j s x y + s else aco_bump P i j s x y) = _
    have hb : aco_bump P i j s x y = if x = i ∧ y = j then P x y + s else P x y := rfl
    rw [hb]
    split_ifs <;> ring
  constructor
  · intro a b
    rw [formula a b, formula b a, hsym a b]
    have e1 : (b = i ∧ a = j) ↔ (a = j ∧ b = i) :=
      ⟨fun hx => ⟨hx.2, hx.1⟩, fun hx => ⟨hx.2, hx.1⟩⟩
    have e2 : (b = j ∧ a = i) ↔ (a = i ∧ b = j) :=
      ⟨fun hx => ⟨hx.2, hx.1⟩, fun hx => ⟨hx.2, hx.1⟩⟩
    rw [if_congr e1 rfl rfl, if_congr e2 rfl rfl]
    ring
  · intro a b
    rw [formula a b]
    have := hn a b
    split_ifs <;> linarith

lemma pheroInv_depositPath {s : ℚ} (hs : 0 ≤ s) :
    ∀ (path : List Nat) (P : Phero), pheroInv P → pheroInv (aco_depositPath s path P)
  | [], P, h => h
  | [_], P, h => h
  | i :: j :: rest, P, h => by
    rw [aco_depositPath]
    exact pheroInv_depositPath hs (j :: rest) _ (pheroInv_bump_pair h i j hs)

lemma pheroInv_iterUpdate (logs : List AcoLog) (paths : List (List Nat)) {P : Phero}
    (h : pheroInv P) : pheroInv (aco_iterUpdate logs paths P) := by
  rw [aco_iterUpdate]
  have base := pheroInv_evaporate h
  generalize aco_evaporate P = Q at base ⊢
  induction paths generalizing Q with
  | nil => exact base
  | cons p t ih =>
    exact ih _ (pheroInv_depositPath (aco_antScore_nonneg logs p) p Q base)

/-- C6: starting from the constant initial matrix, after every iteration's
evaporation-then-deposit step — for every input log list and every family of
ant walks the random generator may produce — the ant-colony pheromone matrix
is symmetric and non-negative.  (`iters` ranges over all finite iteration
sequences, so the invariant holds after each step of any run.) -/
theorem c6_pheromone_symmetric_nonneg :
    ∀ (logs : List AcoLog) (iters : List (List (List Nat))),
      (∀ i j, aco_runPheromones logs iters i j = aco_runPheromones logs iters j i) ∧
      (∀ i j, 0 ≤ aco_runPheromones logs iters i j) := by
  intro logs iters
  have base : pheroInv aco_pheroInit :=
    ⟨fun _ _ => rfl, fun _ _ => show (0:ℚ) ≤ 1/10 by norm_num⟩
  rw [aco_runPheromones]
  generalize aco_pheroInit = P at base ⊢
  induction iters generalizing P with
  | nil => exact base
  | cons paths t ih => exact ih _ (pheroInv_iterUpdate logs paths base)

/-! ## Onlooker-loop termination facts -/

lemma abc_onlookerStep_eq (probs : List ℚ) (r : ℚ) (p : Nat × Nat) :
    abc_onlookerStep probs r p =
      ((p.1 + 1) % probs.length, if r < probs.getD p.1 0 then p.2 + 1 else p.2) := by
  obtain ⟨i, c⟩ := p
  rfl

lemma getD_mem_of_lt {l : List α} {i : Nat} (h : i < l.length) (d : α) : l.getD i d ∈ l := by
  induction l generalizing i with
  | nil => simp at h
  | cons c t ih =>
    cases i with
    | zero => exact List.mem_cons_self _ _
    | succ k => exact List.mem_cons_of_mem _ (ih (by simpa using h))

/-- With a single (here: all-default) log entry the features are one row, so
every food source's fitness is 0 (`_calculate_fitness` short-circuits on at
most one score) and the probabilities are the uniform fallback 1/20 for the
default colony of 20 sources.  On the draw stream constantly 1/2 — a value
`random.random()` can produce at every check — no check ever succeeds, the
acceptance count stays 0 forever, and the onlooker while-loop never reaches
the count `len(food_sources)` it is waiting for: `analyze` does not
terminate on that stream. -/
def abc_onlookerDiverges : Prop :=
  (∀ (stats : List ℚ → ℚ) (sol : List ℚ),
    abc_calculateFitness stats sol (abc_extractFeatures [{}]) = 0) ∧
  (abc_probabilities (List.replicate 20 0) = List.replicate 20 (1/20)) ∧
  (∀ n, (abc_onlookerState (List.replicate 20 (1/20)) (fun _ => 1/2) n).2 = 0)

/-- C10 counterexample: see `abc_onlookerDiverges`. -/
theorem c10_counterexample_onlooker_diverges : abc_onlookerDiverges := by
  refine ⟨?_, by decide, ?_⟩
  · intro stats sol
    rw [abc_calculateFitness]
    have hlen : (abc_anomalyScores sol (abc_extractFeatures [{}])).length = 1 := by
      rw [abc_anomalyScores, abc_extractFeatures]
      simp
    simp [hlen]
  · intro n
    induction n with
    | zero => rfl
    | succ m ih =>
      have step : abc_onlookerState (List.replicate 20 (1/20)) (fun _ => 1/2) (m + 1) =
          abc_onlookerStep (List.replicate 20 (1/20)) (1/2)
            (abc_onlookerState (List.replicate 20 (1/20)) (fun _ => 1/2) m) := rfl
      rw [step, abc_onlookerStep_eq]
      have hnot : ∀ i : Nat, ¬ ((1:ℚ)/2 < (List.replicate 20 ((1:ℚ)/20)).getD i 0) := by
        intro i
        rcases getD_default_or_mem (List.replicate 20 ((1:ℚ)/20)) i 0 with h | h
        · rw [h]; norm_num
        · rw [List.eq_of_mem_replicate h]; norm_num
      rw [if_neg (hnot _)]
      exact ih

/-- C10 (amended): the onlooker loop does terminate when the draws at its
check sites fall below the selection probabilities: if every draw is below
every probability, every check succeeds, so after exactly
`len(food_sources)` checks the acceptance count reaches the population size
and the `while count < len(food_sources)` condition fails. -/
theorem c10_onlooker_terminates_low_draws (probs : List ℚ) (draws : Nat → ℚ)
    (hne : probs ≠ []) (hlow : ∀ (k : Nat), ∀ x ∈ probs, draws k < x) :
    (abc_onlookerState probs draws probs.length).2 = probs.length := by
  have hpos : 0 < probs.length := List.length_pos.mpr hne
  have main : ∀ n, (abc_onlookerState probs draws n).1 = n % probs.length ∧
      (abc_onlookerState probs draws n).2 = n := by
    intro n
    induction n with
    | zero => exact ⟨(Nat.zero_mod _).symm, rfl⟩
    | succ m ih =>
      have step : abc_onlookerState probs draws (m + 1) =
          abc_onlookerStep probs (draws m) (abc_onlookerState probs draws m) := rfl
      rw [step, abc_onlookerStep_eq, ih.1, ih.2]
      have hmem : probs.getD (m % probs.length) 0 ∈ probs :=
        getD_mem_of_lt (Nat.mod_lt m hpos) 0
      rw [if_pos (hlow m _ hmem)]
      exact ⟨Nat.mod_add_mod m probs.length 1 ▸ rfl, rfl⟩
  exact (main probs.length).2

/-- C10 witness: a concrete two-probability loop with all draws at 1/4
terminates after exactly 2 checks. -/
theorem c10_witness :
    (abc_onlookerState [1/2, 1/2] (fun _ => 1/4) 2).2 = 2 :=
  c10_onlooker_terminates_low_draws [1/2, 1/2] (fun _ => 1/4) (by decide)
    (by
      intro k x hx
      rcases List.mem_cons.mp hx with rfl | hx2
      · norm_num
      · rcases List.mem_cons.mp hx2 with rfl | hx3
        · norm_num
        · cases hx3)

/-! ## Brute-force pattern facts -/

lemma firefly_detectBruteForce_of_group (logs : List LogEntry) (criticalIdx : List Nat)
    (hgrp : ∃ g ∈ firefly_groupByIp (firefly_failedLogins logs criticalIdx), 3 ≤ g.2.length) :
    ∃ p, firefly_detectBruteForce logs criticalIdx = some p ∧
      p.pattern_type = "brute_force" ∧ p.severity = 4/5 := by
  rw [firefly_detectBruteForce]
  have hsome : ((firefly_groupByIp (firefly_failedLogins logs criticalIdx)).find?
      (fun g => 3 ≤ g.2.length)).isSome := by
    rw [List.find?_isSome]
    obtain ⟨g, hg, h3⟩ := hgrp
    exact ⟨g, hg, by simpa using h3⟩
  obtain ⟨g0, hfind⟩ := Option.isSome_iff_exists.mp hsome
  rw [hfind]
  exact ⟨_, rfl, rfl, rfl⟩

/-- C4 (amended): if the firefly result has at least 2 critical events and
among them some non-empty source IP accounts for at least 3 failed-login
entries (a group of the per-IP grouping of the critical failed logins has at
least 3 members), then the result includes a pattern with pattern_type
`brute_force` and its fixed severity 0.8.  Failed logins below the 0.65
critical-score threshold never enter this grouping. -/
theorem c4_brute_force_pattern (pos : List ℚ) (logs : List LogEntry)
    (h2 : 2 ≤ (firefly_analyze pos logs).critical_events.length)
    (hgrp : ∃ g ∈ firefly_groupByIp (firefly_failedLogins logs
      ((firefly_analyze pos logs).critical_events.map (fun e => e.log_index))),
      3 ≤ g.2.length) :
    ∃ p ∈ (firefly_analyze pos logs).suspicious_patterns,
      p.pattern_type = "brute_force" ∧ p.severity = 4/5 := by
  by_cases hL : logs = []
  · rw [hL] at h2
    have : (firefly_analyze pos []).critical_events.length = 0 := rfl
    omega
  by_cases hE : (firefly_extractFeatures logs).1 = []
  · have : firefly_analyze pos logs =
        { algorithm := "firefly", alert_score := 0, critical_events := [],
          suspicious_patterns := [] } := by
      rw [firefly_analyze, if_neg (by simpa using hL), hE]
      simp
    rw [this] at h2
    simp at h2
  · have hres : firefly_analyze pos logs =
        { algorithm := "firefly"
          alert_score := firefly_overallAlert
            (firefly_calculateAlertScores pos (firefly_extractFeatures logs).1)
            (firefly_criticalEvents pos logs (firefly_extractFeatures logs).1
              (firefly_extractFeatures logs).2)
            (firefly_identifyPatterns logs
              ((firefly_criticalEvents pos logs (firefly_extractFeatures logs).1
                (firefly_extractFeatures logs).2).map (fun e => e.log_index)))
          critical_events := firefly_criticalEvents pos logs (firefly_extractFeatures logs).1
            (firefly_extractFeatures logs).2
          suspicious_patterns := firefly_identifyPatterns logs
            ((firefly_criticalEvents pos logs (firefly_extractFeatures logs).1
              (firefly_extractFeatures logs).2).map (fun e => e.log_index)) } := by
      rw [firefly_analyze, if_neg (by simpa using hL), if_neg hE]
    rw [hres] at h2 hgrp ⊢
    simp only at h2 hgrp ⊢
    rw [firefly_identifyPatterns]
    rw [if_neg (by
      simp only [List.length_map]
      omega)]
    obtain ⟨p, hp, ht, hs⟩ := firefly_detectBruteForce_of_group logs _ hgrp
    refine ⟨p, ?_, ht, hs⟩
    rw [hp]
    exact List.mem_append_left _ (List.mem_cons_self _ _)

/-- C4 witness: three identical failed logins from one internal IP, with
all weight on the medium-event dimension, are all critical; the brute-force
pattern with severity 0.8 is present. -/
theorem c4_witness :
    ∃ p ∈ (firefly_analyze [0, 0, 0, 0, 0, 0, 0, 0, 0, 0, 1, 0, 0, 0, 0, 0]
        [c4log, c4log, c4log]).suspicious_patterns,
      p.pattern_type = "brute_force" ∧ p.severity = 4/5 :=
  c4_brute_force_pattern [0, 0, 0, 0, 0, 0, 0, 0, 0, 0, 1, 0, 0, 0, 0, 0]
    [c4log, c4log, c4log] (by decide) (by decide)

/-- C4 counterexample: the list of three failed logins from one source IP
(and nothing else), analyzed with a best position the search can produce —
all weight on the location dimension — yields NO suspicious pattern at all:
every alert score is 0, no event is critical, and pattern detection is
skipped; the claim's pattern does not appear although ≥3 failed logins share
a source IP. -/
theorem c4_counterexample_uncritical_logins :
    (firefly_analyze c4pos [c4log, c4log, c4log]).suspicious_patterns = [] ∧
    (firefly_analyze c4pos [c4log, c4log, c4log]).critical_events = [] := by
  refine ⟨by decide, by decide⟩

/-! ## Zero-denominator guard facts -/

lemma sum_map_div (l : List ℚ) (s : ℚ) : (l.map (fun a => a / s)).sum = l.sum / s := by
  induction l with
  | nil => simp
  | cons a t ih => simp [ih, add_div]

lemma sum_map_const (l : List ℚ) (c : ℚ) : (l.map (fun _ => c)).sum = l.length * c := by
  induction l with
  | nil => simp
  | cons a t ih =>
    simp [ih]
    ring

/-- C3 (amended): the guarded sites behave as the spec describes — the
shared score normalization divides only by a positive maximum and its
outputs lie in [0,1], the ant-colony starting-node selection yields a
well-formed distribution (summing to 1, non-negative) with a uniform
fallback on a zero attractiveness sum — but the bee-colony's
`_produce_new_solution` renormalization is unguarded: it produces a
non-finite result exactly when the perturbed, clamped solution sums to 0. -/
theorem c3_zero_denominator_guards :
    (∀ (sol other : List ℚ) (d : Nat) (phi : ℚ),
      abc_produceNewSolution sol other d phi = none ↔
        (sol.set d (clamp01 (sol.getD d 0 + phi * (sol.getD d 0 - other.getD d 0)))).sum = 0) ∧
    (∀ attr : List ℚ, attr ≠ [] → (∀ x ∈ attr, 0 ≤ x) →
      (aco_startProbs attr).sum = 1 ∧ ∀ p ∈ aco_startProbs attr, 0 ≤ p) ∧
    (∀ scores : List ℚ, (∀ x ∈ scores, 0 ≤ x) →
      ∀ y ∈ normalizeByMax scores, 0 ≤ y ∧ y ≤ 1) := by
  refine ⟨?_, ?_, ?_⟩
  · intro sol other d phi
    rw [abc_produceNewSolution]
    by_cases h : (sol.set d (clamp01 (sol.getD d 0 +
        phi * (sol.getD d 0 - other.getD d 0)))).sum = 0
    · simp [h]
    · simp [h]
  · intro attr hne hnn
    have hlen : attr.length ≠ 0 := fun h => hne (List.length_eq_zero.mp h)
    constructor
    · rw [aco_startProbs]
      by_cases hz : attr.sum = 0
      · rw [if_pos hz, sum_map_const]
        rw [one_div]
        rw [mul_inv_cancel₀ (by exact_mod_cast hlen)]
      · rw [if_neg hz, sum_map_div, div_self hz]
    · intro p hp
      rw [aco_startProbs] at hp
      by_cases hz : attr.sum = 0
      · rw [if_pos hz] at hp
        obtain ⟨a, _, rfl⟩ := List.mem_map.mp hp
        positivity
      · rw [if_neg hz] at hp
        obtain ⟨a, ha, rfl⟩ := List.mem_map.mp hp
        exact div_nonneg (hnn a ha) (List.sum_nonneg hnn)
  · intro scores hnn y hy
    rw [normalizeByMax] at hy
    by_cases hm : 0 < npMax scores
    · rw [if_pos hm] at hy
      obtain ⟨x, hx, rfl⟩ := List.mem_map.mp hy
      exact ⟨div_nonneg (hnn x hx) (le_of_lt hm),
        (div_le_one hm).mpr (le_npMax_of_mem hx)⟩
    · rw [if_neg hm] at hy
      push_neg at hm
      have h0 : 0 ≤ y := hnn y hy
      have h1 : y ≤ npMax scores := le_npMax_of_mem hy
      exact ⟨h0, by linarith⟩

/-! ## Normalized-score facts -/

lemma foldl_max_pull (l : List ℚ) : ∀ a b : ℚ, l.foldl max (max a b) = max a (l.foldl max b) := by
  induction l with
  | nil => intro a b; rfl
  | cons c t ih =>
    intro a b
    show t.foldl max (max (max a b) c) = max a (t.foldl max (max b c))
    rw [max_assoc, ih]

lemma npMax_append_cons (A B : List ℚ) (d : ℚ) (hd : 0 ≤ d) :
    npMax (A ++ d :: B) = max d (npMax (A ++ B)) := by
  cases A with
  | nil =>
    cases B with
    | nil => simp [npMax, max_eq_left hd]
    | cons b t =>
      show t.foldl max (max d b) = max d (t.foldl max b)
      exact foldl_max_pull t d b
  | cons a A2 =>
    show (A2 ++ d :: B).foldl max a = max d ((A2 ++ B).foldl max a)
    rw [List.foldl_append, List.foldl_append]
    show B.foldl max (max (A2.foldl max a) d) = max d (B.foldl max (A2.foldl max a))
    rw [max_comm (A2.foldl max a) d]
    exact foldl_max_pull B d (A2.foldl max a)

lemma getD_append_length (A : List ℚ) (d : ℚ) (B : List ℚ) :
    (A ++ d :: B).getD A.length 0 = d := by
  induction A with
  | nil => rfl
  | cons a t ih => exact ih

lemma getD_map_div (l : List ℚ) (m : ℚ) (k : Nat) :
    (l.map (fun s => s / m)).getD k 0 = l.getD k 0 / m := by
  induction l generalizing k with
  | nil => simp
  | cons a t ih =>
    cases k with
    | zero => rfl
    | succ n => exact ih n

lemma normalizeByMax_getD (scores : List ℚ) (k : Nat) :
    (normalizeByMax scores).getD k 0 =
      if 0 < npMax scores then scores.getD k 0 / npMax scores else scores.getD k 0 := by
  rw [normalizeByMax]
  split_ifs with h
  · exact getD_map_div scores (npMax scores) k
  · rfl

lemma dot_le_dot : ∀ {r r' w : List ℚ}, (∀ x ∈ w, 0 ≤ x) →
    List.Forall₂ (fun a b => a ≤ b) r r' → dot r w ≤ dot r' w := by
  intro r r' w hw hf
  induction hf generalizing w with
  | nil => exact le_refl _
  | cons hab tail ih =>
    cases w with
    | nil => exact le_refl _
    | cons c w2 =>
      show (_ * c + _) ≤ (_ * c + _)
      have h1 := mul_le_mul_of_nonneg_right hab (hw c (List.mem_cons_self _ _))
      have h2 := ih (fun x hx => hw x (List.mem_cons_of_mem _ hx))
      exact add_le_add h1 h2

lemma normalizeByMax_mem_bounds {scores : List ℚ} (hnn : ∀ x ∈ scores, 0 ≤ x) :
    ∀ y ∈ normalizeByMax scores, 0 ≤ y ∧ y ≤ 1 := by
  intro y hy
  rw [normalizeByMax] at hy
  by_cases hm : 0 < npMax scores
  · rw [if_pos hm] at hy
    obtain ⟨x, hx, rfl⟩ := List.mem_map.mp hy
    exact ⟨div_nonneg (hnn x hx) (le_of_lt hm), (div_le_one hm).mpr (le_npMax_of_mem hx)⟩
  · rw [if_neg hm] at hy
    push_neg at hm
    have h1 := le_npMax_of_mem hy
    exact ⟨hnn y hy, by linarith⟩

/-- C7 (amended): the three per-log normalized scorers are one and the same
function; with non-negative features and positive weights every normalized
score lies in [0,1]; and an entry's score is non-decreasing in any single
feature value of THAT entry, all weights and all other feature values held
fixed.  (Monotonicity in other entries' features fails — see the
counterexample — because the shared maximum grows.) -/
theorem c7_norm_scores_bounds_monotone :
    (pso_calculateRiskScores = fss_calculateAnomalyScores ∧
     pso_calculateRiskScores = firefly_calculateAlertScores) ∧
    (∀ (w : List ℚ) (F : List (List ℚ)),
      (∀ f ∈ F, ∀ x ∈ f, 0 ≤ x ∧ x ≤ 1) → (∀ x ∈ w, 0 < x) →
      ∀ s ∈ pso_calculateRiskScores w F, 0 ≤ s ∧ s ≤ 1) ∧
    (∀ (w r r2 : List ℚ) (pre suf : List (List ℚ)),
      (∀ f ∈ pre ++ r :: suf, ∀ x ∈ f, 0 ≤ x) →
      (∀ x ∈ r2, 0 ≤ x) →
      (∀ x ∈ w, 0 < x) →
      List.Forall₂ (fun a b => a ≤ b) r r2 →
      (pso_calculateRiskScores w (pre ++ r :: suf)).getD pre.length 0 ≤
        (pso_calculateRiskScores w (pre ++ r2 :: suf)).getD pre.length 0) := by
  refine ⟨⟨rfl, rfl⟩, ?_, ?_⟩
  · intro w F hF hw s hs
    rw [pso_calculateRiskScores] at hs
    apply normalizeByMax_mem_bounds _ s hs
    intro x hx
    obtain ⟨f, hf, rfl⟩ := List.mem_map.mp hx
    exact dot_nonneg (fun u hu => (hF f hf u hu).1) (fun u hu => le_of_lt (hw u hu))
  · intro w r r2 pre suf hF hr2 hw hle
    have hw0 : ∀ x ∈ w, 0 ≤ x := fun x hx => le_of_lt (hw x hx)
    set D := fun f => dot f w with hD
    have hmap : ∀ (l : List (List ℚ)), (l.map D) = l.map (fun f => dot f w) := fun _ => rfl
    -- scores decompose around position pre.length
    have hsplit : ∀ (mid : List ℚ),
        ((pre ++ mid :: suf).map (fun f => dot f w)) =
          pre.map D ++ dot mid w :: suf.map D := by
      intro mid
      rw [List.map_append, List.map_cons]
    have hd : dot r w ≤ dot r2 w := dot_le_dot hw0 hle
    have hdr : 0 ≤ dot r w := by
      apply dot_nonneg _ hw0
      intro x hx
      exact hF r (by simp) x hx
    have hdr2 : 0 ≤ dot r2 w := dot_nonneg hr2 hw0
    have hothers : ∀ x ∈ pre.map D ++ suf.map D, 0 ≤ x := by
      intro x hx
      rcases List.mem_append.mp hx with h | h
      · obtain ⟨f, hf, rfl⟩ := List.mem_map.mp h
        exact dot_nonneg (fun u hu => hF f (by simp [hf]) u hu) hw0
      · obtain ⟨f, hf, rfl⟩ := List.mem_map.mp h
        exact dot_nonneg (fun u hu => hF f (by simp [hf]) u hu) hw0
    set A := npMax (pre.map D ++ suf.map D) with hA
    have hA0 : 0 ≤ A := npMax_nonneg hothers
    have hk : (pre.map D).length = pre.length := List.length_map _ _
    -- the two maxima
    have hM : npMax ((pre ++ r :: suf).map (fun f => dot f w)) = max (dot r w) A := by
      rw [hsplit r, npMax_append_cons _ _ _ hdr]
    have hM2 : npMax ((pre ++ r2 :: suf).map (fun f => dot f w)) = max (dot r2 w) A := by
      rw [hsplit r2, npMax_append_cons _ _ _ hdr2]
    -- the two entries at position pre.length
    have hE : ((pre ++ r :: suf).map (fun f => dot f w)).getD pre.length 0 = dot r w := by
      rw [hsplit r, ← hk]
      exact getD_append_length _ _ _
    have hE2 : ((pre ++ r2 :: suf).map (fun f => dot f w)).getD pre.length 0 = dot r2 w := by
      rw [hsplit r2, ← hk]
      exact getD_append_length _ _ _
    rw [pso_calculateRiskScores, pso_calculateRiskScores,
      normalizeByMax_getD, normalizeByMax_getD, hM, hM2, hE, hE2]
    by_cases h2 : 0 < max (dot r2 w) A
    · by_cases hcmp : dot r2 w ≤ A
      · have hMA : max (dot r w) A = A := max_eq_right (le_trans hd hcmp)
        have hM2A : max (dot r2 w) A = A := max_eq_right hcmp
        rw [hM2A] at h2 ⊢
        rw [hMA]
        rw [if_pos h2, if_pos h2]
        gcongr
      · push_neg at hcmp
        have hM2A : max (dot r2 w) A = dot r2 w := max_eq_left (le_of_lt hcmp)
        rw [hM2A] at h2 ⊢
        rw [if_pos h2, div_self (ne_of_gt h2)]
        by_cases h1 : 0 < max (dot r w) A
        · rw [if_pos h1]
          exact div_le_one_of_le₀ (le_max_left _ _) (le_of_lt h1)
        · rw [if_neg h1]
          push_neg at h1
          have := le_max_left (dot r w) A
          linarith
    · rw [if_neg h2]
      push_neg at h2
      have h1 : ¬ 0 < max (dot r w) A := by
        push_neg
        calc max (dot r w) A ≤ max (dot r2 w) A := max_le_max hd (le_refl A)
        _ ≤ 0 := h2
      rw [if_neg h1]
      push_neg at h1
      have := le_max_left (dot r w) A
      linarith

/-! ## Flagging facts for the canonical high-risk entry -/

lemma normalizeByMax_singleton_pos {d : ℚ} (h : 0 < d) : normalizeByMax [d] = [1] := by
  rw [normalizeByMax]
  show (if 0 < d then [d].map (fun s => s / d) else [d]) = [1]
  rw [if_pos h]
  show [d / d] = [1]
  rw [div_self (ne_of_gt h)]

lemma pso_factors_ne_nil (pos f : List ℚ) (log : LogEntry) (j : Nat) (hj : j < 15)
    (hgt : 1/100 < pos.getD j 0 * f.getD j 0) :
    pso_getContributingFactors (pso_getFactorScores pos f) log ≠ [] := by
  rw [pso_getContributingFactors]
  apply take_ne_nil _ 5 (by norm_num)
  have hmem : (j, pos.getD j 0 * f.getD j 0) ∈ pso_getFactorScores pos f := by
    rw [pso_getFactorScores]
    exact mem_sortDescBy_of_mem
      (List.mem_map_of_mem (fun i => (i, pos.getD i 0 * f.getD i 0)) (List.mem_range.mpr hj))
  have hfil : (j, pos.getD j 0 * f.getD j 0) ∈
      (pso_getFactorScores pos f).filter (fun p => 1/100 < p.2) :=
    List.mem_filter.mpr ⟨hmem, by simpa using hgt⟩
  intro hnil
  rw [List.map_eq_nil_iff] at hnil
  exact List.ne_nil_of_mem hfil hnil

lemma firefly_factors_ne_nil (pos f : List ℚ) (j : Nat) (hj : j < pos.length)
    (hfpos : 0 < f.getD j 0) (hgt : 1/100 < pos.getD j 0 * f.getD j 0) :
    firefly_describeAlertFactors (firefly_getFactorContributions pos f) ≠ [] := by
  rw [firefly_describeAlertFactors]
  apply take_ne_nil _ 5 (by norm_num)
  have hmem : (j, pos.getD j 0 * f.getD j 0) ∈ firefly_getFactorContributions pos f := by
    rw [firefly_getFactorContributions]
    apply mem_sortDescBy_of_mem
    apply List.mem_map_of_mem (fun i => (i, pos.getD i 0 * f.getD i 0))
    exact List.mem_filter.mpr ⟨List.mem_range.mpr hj, by simpa using hfpos⟩
  have hfil : (j, pos.getD j 0 * f.getD j 0) ∈
      (firefly_getFactorContributions pos f).filter (fun p => 1/100 < p.2) :=
    List.mem_filter.mpr ⟨hmem, by simpa using hgt⟩
  intro hnil
  rw [List.map_eq_nil_iff] at hnil
  exact List.ne_nil_of_mem hfil hnil

set_option maxHeartbeats 1600000 in
/-- C1 (amended): for the single-entry list holding the canonical high-risk
entry — location "North Korea", port 445, process "mimikatz", status
"failed", nothing else —
(1) bee-colony flags it with its four log-derived reasons whenever the best
solution puts positive total weight on the entry's active features;
(2) particle-swarm flags it with a non-empty factor list whenever the
active-feature weights are non-negative and some active contribution clears
the 0.01 reporting threshold;
(3) firefly does the same with its 0.65 threshold;
(4) ant-colony reports it as its one most-suspicious log (attractiveness
17/25), independent of the clock and of the ants' walks — with no per-entry
reason list in that record type;
(5) fish-school never flags it: feature extraction skips the entry (no
source_ip, no event_type) and analyze returns the empty result for every
abstracted loop outcome. -/
theorem c1_flagging_per_strategy :
    (∀ s0 s1 s2 s3 s4 s5 s6 s7 : ℚ, 0 < s0 + s1 + s3 + s5 →
      ∃ a ∈ (abc_evaluateBestSolution [s0, s1, s2, s3, s4, s5, s6, s7] [c1log]
        (abc_extractFeatures [c1log])).2, a.log_index = 0 ∧ a.reasons ≠ []) ∧
    (∀ p0 p1 p2 p3 p4 p5 p6 p7 p8 p9 p10 p11 p12 p13 p14 : ℚ,
      0 ≤ p0 → 0 ≤ p3 → 0 ≤ p7 → 0 ≤ p10 →
      (1/100 < p0 ∨ 1/100 < p3 ∨ 1/100 < p7 ∨ 1/100 < p10 * (7/10)) →
      ∃ fi ∈ (pso_analyze [p0, p1, p2, p3, p4, p5, p6, p7, p8, p9, p10, p11, p12, p13, p14]
        [c1log]).findings, fi.log_index = 0 ∧ fi.contributing_factors ≠ []) ∧
    (∀ q0 q1 q2 q3 q4 q5 q6 q7 q8 q9 q10 q11 q12 q13 q14 q15 : ℚ,
      0 ≤ q0 → 0 ≤ q3 → 0 ≤ q6 → 0 ≤ q11 →
      (1/100 < q0 ∨ 1/100 < q3 ∨ 1/100 < q6 ∨ 1/100 < q11) →
      ∃ e ∈ (firefly_analyze [q0, q1, q2, q3, q4, q5, q6, q7, q8, q9, q10, q11, q12, q13,
        q14, q15] [c1log]).critical_events, e.log_index = 0 ∧ e.contributing_factors ≠ []) ∧
    (∀ (nowKey : ℤ) (iters : List (List (List Nat))),
      (aco_analyze nowKey iters [c1log]).most_suspicious_logs.map
        (fun s => (s.index, s.attractiveness)) = [(0, 17/25)]) ∧
    (∀ iters bestUpd fvs positionsAfter bestFit,
      fss_analyze iters bestUpd fvs positionsAfter bestFit [c1log] =
        .ok { algorithm := "fss", anomaly_score := 0, priority_events := [],
              feature_importance := [] }) := by
  refine ⟨?_, ?_, ?_, ?_, fun _ _ _ _ _ => rfl⟩
  · -- bee-colony
    intro s0 s1 s2 s3 s4 s5 s6 s7 h
    have hF : abc_extractFeatures [c1log] = [[1, 1, 0, 1, 0, 1, 0, 0]] := by decide
    have hscores : abc_anomalyScores [s0, s1, s2, s3, s4, s5, s6, s7]
        (abc_extractFeatures [c1log]) = [s0 + s1 + s3 + s5] := by
      rw [hF, abc_anomalyScores]
      show [dot [1, 1, 0, 1, 0, 1, 0, 0] [s0, s1, s2, s3, s4, s5, s6, s7]] = _
      have : dot [1, 1, 0, 1, 0, 1, 0, 0] [s0, s1, s2, s3, s4, s5, s6, s7] =
          s0 + s1 + s3 + s5 := by
        simp [dot]
        ring
      rw [this]
    have hnorm : normalizeByMax (abc_anomalyScores [s0, s1, s2, s3, s4, s5, s6, s7]
        (abc_extractFeatures [c1log])) = [1] := by
      rw [hscores]
      exact normalizeByMax_singleton_pos h
    have hdet : (abc_evaluateBestSolution [s0, s1, s2, s3, s4, s5, s6, s7] [c1log]
        (abc_extractFeatures [c1log])).2 =
        abc_detectedAnomalies [s0, s1, s2, s3, s4, s5, s6, s7] [c1log]
          (abc_extractFeatures [c1log]) := rfl
    rw [hdet, abc_detectedAnomalies, hnorm]
    decide
  · -- particle-swarm
    intro p0 p1 p2 p3 p4 p5 p6 p7 p8 p9 p10 p11 p12 p13 p14 h0 h3 h7 h10 hp
    have hF : pso_extractFeatures [c1log] =
        ([[1, 0, 0, 1, 0, 0, 0, 1, 0, 0, 7/10, 0, 0, 0, 0]], [0]) := by decide
    have hdot : dot [1, 0, 0, 1, 0, 0, 0, 1, 0, 0, 7/10, 0, 0, 0, 0]
        [p0, p1, p2, p3, p4, p5, p6, p7, p8, p9, p10, p11, p12, p13, p14] =
        p0 + p3 + p7 + 7/10 * p10 := by
      simp [dot]
      ring
    have hdpos : 0 < p0 + p3 + p7 + 7/10 * p10 := by
      have hq : 0 ≤ 7/10 * p10 := by linarith
      rcases hp with h | h | h | h <;> linarith
    have hscores : pso_calculateRiskScores
        [p0, p1, p2, p3, p4, p5, p6, p7, p8, p9, p10, p11, p12, p13, p14]
        [[1, 0, 0, 1, 0, 0, 0, 1, 0, 0, 7/10, 0, 0, 0, 0]] = [1] := by
      rw [pso_calculateRiskScores]
      show normalizeByMax [dot [1, 0, 0, 1, 0, 0, 0, 1, 0, 0, 7/10, 0, 0, 0, 0]
        [p0, p1, p2, p3, p4, p5, p6, p7, p8, p9, p10, p11, p12, p13, p14]] = [1]
      rw [hdot]
      exact normalizeByMax_singleton_pos hdpos
    have hfind : (pso_analyze [p0, p1, p2, p3, p4, p5, p6, p7, p8, p9, p10, p11, p12, p13, p14]
        [c1log]).findings =
        pso_findings [p0, p1, p2, p3, p4, p5, p6, p7, p8, p9, p10, p11, p12, p13, p14]
          [c1log] [[1, 0, 0, 1, 0, 0, 0, 1, 0, 0, 7/10, 0, 0, 0, 0]] [0] := by
      rw [pso_analyze, if_neg (by simp), hF, if_neg (by simp)]
    rw [hfind, pso_findings]
    simp only [hscores]
    have h0mem : (0 : Nat) ∈ (List.range ([(1:ℚ)].length)).filter
        (fun i => 3/5 < [(1:ℚ)].getD i 0) := by decide
    refine ⟨_, mem_sortDescBy_of_mem (List.mem_map_of_mem _ h0mem), ?_, ?_⟩
    · rfl
    · have hne : pso_getContributingFactors
          (pso_getFactorScores [p0, p1, p2, p3, p4, p5, p6, p7, p8, p9, p10, p11, p12, p13, p14]
            ([[1, 0, 0, 1, 0, 0, 0, 1, 0, 0, 7/10, 0, 0, 0, 0]].getD 0 []))
          ([c1log].getD ([0].getD 0 0) default) ≠ [] := by
        rcases hp with h | h | h | h
        · exact pso_factors_ne_nil _ _ _ 0 (by norm_num) (by simpa using h)
        · exact pso_factors_ne_nil _ _ _ 3 (by norm_num) (by simpa using h)
        · exact pso_factors_ne_nil _ _ _ 7 (by norm_num) (by simpa using h)
        · exact pso_factors_ne_nil _ _ _ 10 (by norm_num) (by simpa using h)
      dsimp only
      exact hne
  · -- firefly
    intro q0 q1 q2 q3 q4 q5 q6 q7 q8 q9 q10 q11 q12 q13 q14 q15 h0 h3 h6 h11 hp
    have hF : firefly_extractFeatures [c1log] =
        ([[1, 0, 0, 1, 0, 0, 1, 0, 0, 0, 0, 1, 0, 0, 0, 0]], [0]) := by decide
    have hdot : dot [1, 0, 0, 1, 0, 0, 1, 0, 0, 0, 0, 1, 0, 0, 0, 0]
        [q0, q1, q2, q3, q4, q5, q6, q7, q8, q9, q10, q11, q12, q13, q14, q15] =
        q0 + q3 + q6 + q11 := by
      simp [dot]
      ring
    have hdpos : 0 < q0 + q3 + q6 + q11 := by
      rcases hp with h | h | h | h <;> linarith
    have hscores : firefly_calculateAlertScores
        [q0, q1, q2, q3, q4, q5, q6, q7, q8, q9, q10, q11, q12, q13, q14, q15]
        [[1, 0, 0, 1, 0, 0, 1, 0, 0, 0, 0, 1, 0, 0, 0, 0]] = [1] := by
      rw [firefly_calculateAlertScores]
      show normalizeByMax [dot [1, 0, 0, 1, 0, 0, 1, 0, 0, 0, 0, 1, 0, 0, 0, 0]
        [q0, q1, q2, q3, q4, q5, q6, q7, q8, q9, q10, q11, q12, q13, q14, q15]] = [1]
      rw [hdot]
      exact normalizeByMax_singleton_pos hdpos
    have hev : (firefly_analyze
        [q0, q1, q2, q3, q4, q5, q6, q7, q8, q9, q10, q11, q12, q13, q14, q15]
        [c1log]).critical_events =
        firefly_criticalEvents
          [q0, q1, q2, q3, q4, q5, q6, q7, q8, q9, q10, q11, q12, q13, q14, q15]
          [c1log] [[1, 0, 0, 1, 0, 0, 1, 0, 0, 0, 0, 1, 0, 0, 0, 0]] [0] := by
      rw [firefly_analyze, if_neg (by simp), hF, if_neg (by simp)]
    rw [hev, firefly_criticalEvents]
    simp only [hscores]
    have h0mem : (0 : Nat) ∈ (List.range ([(1:ℚ)].length)).filter
        (fun i => 13/20 < [(1:ℚ)].getD i 0) := by decide
    refine ⟨_, mem_sortDescBy_of_mem (List.mem_map_of_mem _ h0mem), ?_, ?_⟩
    · rfl
    · have hne : firefly_describeAlertFactors
          (firefly_getFactorContributions
            [q0, q1, q2, q3, q4, q5, q6, q7, q8, q9, q10, q11, q12, q13, q14, q15]
            ([[1, 0, 0, 1, 0, 0, 1, 0, 0, 0, 0, 1, 0, 0, 0, 0]].getD 0 [])) ≠ [] := by
        rcases hp with h | h | h | h
        · exact firefly_factors_ne_nil _ _ 0 (by norm_num) (by norm_num) (by simpa using h)
        · exact firefly_factors_ne_nil _ _ 3 (by norm_num) (by norm_num) (by simpa using h)
        · exact firefly_factors_ne_nil _ _ 6 (by norm_num) (by norm_num) (by simpa using h)
        · exact firefly_factors_ne_nil _ _ 11 (by norm_num) (by norm_num) (by simpa using h)
      dsimp only
      exact hne
  · -- ant-colony
    intro nowKey iters
    have hsusp : (aco_analyze nowKey iters [c1log]).most_suspicious_logs =
        aco_extractSuspiciousLogs
          (aco_nodeAttractiveness (aco_preprocess nowKey [c1log]))
          (aco_preprocess nowKey [c1log]) := rfl
    rw [hsusp]
    have hpl : aco_preprocess nowKey [c1log] = [aco_preprocessOne nowKey 0 c1log] := rfl
    rw [hpl]
    have hrw : aco_preprocessOne nowKey 0 c1log =
        { aco_preprocessOne 0 0 c1log with datetime := nowKey } := rfl
    have hig : ∀ (l : AcoLog) (d : ℤ),
        aco_nodeAttractivenessOne { l with datetime := d } = aco_nodeAttractivenessOne l :=
      fun _ _ => rfl
    have hone : aco_nodeAttractivenessOne (aco_preprocessOne nowKey 0 c1log) = 17/25 := by
      rw [hrw, hig]
      decide
    have hattr : aco_nodeAttractiveness [aco_preprocessOne nowKey 0 c1log] = [17/25] := by
      rw [aco_nodeAttractiveness]
      show [aco_nodeAttractivenessOne (aco_preprocessOne nowKey 0 c1log)] = [17/25]
      rw [hone]
    rw [hattr]
    rw [hrw]
    rfl
